import Mathlib

/-!
Shallow embedding of the ProvInspector event-to-provenance translator
(StreamVizzard provenance inspector) and proofs about its behaviour.

The embedding follows the Python source:
  * `src/provinspector/domain/model.py`     — domain records and PROV identifiers
  * `src/provinspector/domain/constants.py` — role and type constants
  * `src/provinspector/prov/model.py`       — PROV context and sub-model builders
  * `src/provinspector/storage/repository.py` — the in-memory object store
  * `src/provinspector/provinspector.py`    — the stateful translator

Python `uuid4()` draws are modelled by a fresh-number supply threaded through
the translator state; all that the program observes of a uuid is its identity,
which the supply preserves.  Python lists attached to revisions are mutable
objects shared by aliasing, so revisions store heap references (`operatorsRef`,
`connectionsRef`) into an explicit heap of lists; dataclass equality for the
records compared by the store is structural, which the derived `DecidableEq`
mirrors (uuid freshness makes each record unique, so reference equality and
structural equality coincide for the records this program builds).
-/

namespace Provinspector

/-- Python scalar values as they occur in the translator's inputs
(`operator_data` dictionary values, changed parameter values, metric values).
Floats are represented by rationals; the program only constructs and compares
these values, it never computes with them. -/
inductive PyVal where
  | pint : Int → PyVal
  | pfloat : Rat → PyVal
  | pstr : String → PyVal
  | pbool : Bool → PyVal
  | pnone : PyVal
deriving DecidableEq, Repr

/-- Upper-case hexadecimal digit for percent-encoding. -/
def hexDigit (n : Nat) : Char :=
  if n < 10 then Char.ofNat (48 + n) else Char.ofNat (55 + n)

/-- UTF-8 encoding of one character as byte values. -/
def utf8Bytes (c : Char) : List Nat :=
  let n := c.toNat
  if n < 128 then [n]
  else if n < 2048 then [192 + n / 64, 128 + n % 64]
  else if n < 65536 then [224 + n / 4096, 128 + (n / 64) % 64, 128 + n % 64]
  else [240 + n / 262144, 128 + (n / 4096) % 64, 128 + (n / 64) % 64, 128 + n % 64]

/-- Embedding of `urllib.parse.quote_plus(s, safe="")`: UTF-8 bytes that are
ASCII alphanumerics or one of `_ . - ~` pass through, a space becomes `+`,
every other byte becomes `%XX`. -/
def quote_plus (s : String) : String :=
  String.mk ((s.data.foldr (fun c acc => utf8Bytes c ++ acc) []).foldr (fun n acc =>
    if (48 ≤ n ∧ n ≤ 57) ∨ (65 ≤ n ∧ n ≤ 90) ∨ (97 ≤ n ∧ n ≤ 122)
        ∨ n = 95 ∨ n = 46 ∨ n = 45 ∨ n = 126 then
      Char.ofNat n :: acc
    else if n = 32 then
      '+' :: acc
    else
      '%' :: hexDigit (n / 16) :: hexDigit (n % 16) :: acc) [])

/-- Deterministic stand-in for CPython's `hash` as used in
`Parameter.prov_identifier` (CPython string hashing is process-salted; the
program only uses the hash as a function of the value, which this preserves). -/
def pyHash : PyVal → Int
  | .pint n => n
  | .pfloat q => q.num * 1000003 + q.den
  | .pstr s => s.data.foldl (fun a c => a * 1114112 + c.toNat) 7
  | .pbool b => if b then 1 else 0
  | .pnone => 271828

/-- Stand-in for Python `str` on a float value (used only inside
`Metric.prov_identifier`; its exact spelling is never inspected). -/
def floatStr (q : Rat) : String :=
  if q.den = 1 then toString q.num else toString q.num ++ "/" ++ toString q.den

/-- Operator entity (`domain/model.py`, class `Operator`). -/
structure Operator where
  id_ : Int
  name : String
deriving DecidableEq, Repr

/-- Parameter entity (`domain/model.py`, class `Parameter`). -/
structure Parameter where
  name : String
  value : PyVal
deriving DecidableEq, Repr

/-- Operator revision entity (`domain/model.py`, class `OperatorRevision`). -/
structure OperatorRevision where
  uuid : Nat
  id_ : Int
  operator : Operator
  parameters : List Parameter
  parent_operator_revision_uuid : Option Nat
deriving DecidableEq, Repr

/-- Connection entity (`domain/model.py`, class `Connection`). -/
structure Connection where
  id_ : Int
  from_operator_id : Int
  to_operator_id : Int
deriving DecidableEq, Repr

/-- Pipeline version entity (`domain/model.py`, class `PipelineVersion`). -/
structure PipelineVersion where
  id_ : Int
  parent_pipeline_version_id : Option Int
deriving DecidableEq, Repr

/-- Pipeline version revision entity (`domain/model.py`, class
`PipelineVersionRevision`).  The Python record holds the mutable lists
`operators` and `connections`; here the revision stores references into the
heap of lists (`Heap` below), so that Python's aliasing of those list objects
between records is represented faithfully. -/
structure PipelineVersionRevision where
  uuid : Nat
  id_ : Int
  pipeline_version : PipelineVersion
  parent_pipeline_version_revision_uuid : Option Nat
  operatorsRef : Nat
  connectionsRef : Nat
deriving DecidableEq, Repr

/-- Metric entity (`domain/model.py`, class `Metric`). -/
structure Metric where
  name : String
  value : Rat
deriving DecidableEq, Repr

/-- Operator run entity (`domain/model.py`, class `OperatorRun`); its Python
`id_` is `str(uuid4())`, modelled by a fresh number. -/
structure OperatorRun where
  id_ : Nat
  created_at : Rat
  metrics : List Metric
deriving DecidableEq, Repr

/-- Pipeline version creation activity (`domain/model.py`,
class `PipelineVersionCreation`). -/
structure PipelineVersionCreation where
  uuid : Nat
  pipeline_version_revision : PipelineVersionRevision
  parent_pipeline_version_creation_uuid : Option Nat
  time : Rat
deriving DecidableEq, Repr

/-- Pipeline change discriminator (`domain/constants.py`,
enum `PipelineChangeType`). -/
inductive PipelineChangeType where
  | operator_creation
  | operator_modification
  | operator_deletion
  | connection_creation
  | connection_deletion
deriving DecidableEq, Repr

/-- Pipeline change activity (`domain/model.py`, class `PipelineChange` with
its five subtypes collapsed into the discriminated base record: every subtype
merely fixes `pipeline_change_type` and one of the two payload fields). -/
structure PipelineChange where
  uuid : Nat
  pipeline_change_type : PipelineChangeType
  time : Rat
  operator_revision : Option OperatorRevision
  connection : Option Connection
  pipeline_version_revision : PipelineVersionRevision
  parent_pipeline_change_uuid : Option Nat
deriving DecidableEq, Repr

/-- Operator step type (`domain/constants.py`, enum `OperatorStepType`). -/
inductive OperatorStepType where
  | on_source_produced_tuple
  | on_tuple_transmitted
  | on_stream_process_tuple
  | pre_tuple_processed
  | on_tuple_processed
  | on_op_executed
deriving DecidableEq, Repr

/-- Operator execution activity (`domain/model.py`, class `OperatorExecution`). -/
structure OperatorExecution where
  uuid : Nat
  operator_revision : OperatorRevision
  operator_run : OperatorRun
  operator_step_type : OperatorStepType
  time : Rat
deriving DecidableEq, Repr

/-- PROV identifier of a `PipelineVersion` (`domain/model.py`). -/
def PipelineVersion.prov_identifier (v : PipelineVersion) : String :=
  "PipelineVersion?id=" ++ quote_plus (toString v.id_)

/-- PROV identifier of a `PipelineVersionRevision` (`domain/model.py`). -/
def PipelineVersionRevision.prov_identifier (r : PipelineVersionRevision) : String :=
  "PipelineVersionRevision?uuid=" ++ quote_plus (toString r.uuid)

/-- PROV identifier of an `Operator` (`domain/model.py`). -/
def Operator.prov_identifier (o : Operator) : String :=
  "Operator?id=" ++ quote_plus (toString o.id_)

/-- PROV identifier of an `OperatorRevision` (`domain/model.py`). -/
def OperatorRevision.prov_identifier (o : OperatorRevision) : String :=
  "OperatorRevision?uuid=" ++ quote_plus (toString o.uuid)

/-- PROV identifier of a `Parameter` (`domain/model.py`); the value is
hashed, not printed. -/
def Parameter.prov_identifier (p : Parameter) : String :=
  "Parameter?name=" ++ quote_plus p.name ++ "&value=" ++ toString (pyHash p.value)

/-- PROV identifier of an `OperatorRun` (`domain/model.py`). -/
def OperatorRun.prov_identifier (r : OperatorRun) : String :=
  "OperatorRun?id=" ++ quote_plus (toString r.id_)

/-- PROV identifier of a `Metric` (`domain/model.py`); the value is printed
with `str` and not percent-encoded. -/
def Metric.prov_identifier (m : Metric) : String :=
  "Metric?name=" ++ quote_plus m.name ++ "&value=" ++ floatStr m.value

/-- PROV identifier of a `Connection` (`domain/model.py`). -/
def Connection.prov_identifier (c : Connection) : String :=
  "Connection?id=" ++ quote_plus (toString c.id_)

/-- PROV identifier of a `PipelineVersionCreation` (`domain/model.py`). -/
def PipelineVersionCreation.prov_identifier (c : PipelineVersionCreation) : String :=
  "PipelineVersionCreation?uuid=" ++ quote_plus (toString c.uuid)

/-- PROV identifier of a `PipelineChange` (`domain/model.py`). -/
def PipelineChange.prov_identifier (c : PipelineChange) : String :=
  "PipelineChange?uuid=" ++ quote_plus (toString c.uuid)

/-- PROV identifier of an `OperatorExecution` (`domain/model.py`). -/
def OperatorExecution.prov_identifier (e : OperatorExecution) : String :=
  "OperatorExecution?uuid=" ++ quote_plus (toString e.uuid)

/-- PROV role strings (`domain/constants.py`, class `ProvRole`); note the
value of `CREATED_OPERATOR_RUN`. -/
def ProvRole.CREATED_PIPELINE_VERSION : String := "CreatedPipelineVersion"

/-- Role for the generation of a pipeline version revision. -/
def ProvRole.CREATED_PIPELINE_VERSION_REVISION : String := "CreatedPipelineVersionRevision"

/-- Role for the generation of an operator. -/
def ProvRole.CREATED_OPERATOR : String := "CreatedOperator"

/-- Role for the generation of a modified operator revision. -/
def ProvRole.MODIFIED_OPERATOR : String := "ModifiedOperator"

/-- Role for the invalidation of an operator. -/
def ProvRole.DELETED_OPERATOR : String := "DeletedOperator"

/-- Role for the generation of a connection. -/
def ProvRole.CREATED_CONNECTION : String := "CreatedConnection"

/-- Role for the invalidation of a connection. -/
def ProvRole.DELETED_CONNECTION : String := "DeletedConnection"

/-- Role for the generation of an operator run; the constant's value in
`domain/constants.py` is the string "AddedOperatorRun". -/
def ProvRole.CREATED_OPERATOR_RUN : String := "AddedOperatorRun"

/-- Role for the usage of a parent pipeline version. -/
def ProvRole.USED_PARENT_PIPELINE_VERSION : String := "UsedParentPipelineVersion"

/-- Role for the usage of a parent pipeline version revision. -/
def ProvRole.USED_PARENT_PIPELINE_VERSION_REVISION : String := "UsedParentPipelineVersionRevision"

/-- Role for the usage of an operator revision. -/
def ProvRole.USED_OPERATOR_REVISION : String := "UsedOperatorRevision"

/-- Role for the usage of a parent operator revision. -/
def ProvRole.USED_PARENT_OPERATOR_REVISION : String := "UsedParentOperatorRevision"

/-- The relation kinds passed to `ProvContext.add_relation` by the sub-model
builders (`prov/model.py`): the `prov` library relation classes
`ProvGeneration`, `ProvUsage`, `ProvCommunication`, `ProvDerivation`, the
repository's own `ProvRevision` subclass of `ProvDerivation`,
`ProvInvalidation`, `ProvMembership` and `ProvSpecialization`. -/
inductive RelationKind where
  | generation
  | usage
  | communication
  | derivation
  | revision
  | invalidation
  | membership
  | specialization
deriving DecidableEq, Repr

/-- One edge record created by `ProvContext.add_relation` (`prov/model.py`,
lines 67-103).  `source` and `target` are the PROV identifiers of the two
endpoint records; `time` and `role` are the only extra attributes the builders
ever pass; `assertsRevision` records the `add_asserted_type(PROV["Revision"])`
call made exactly for the `ProvRevision` relation class. -/
structure ProvRelationRec where
  kind : RelationKind
  source : String
  target : String
  identifier : Option String
  time : Option Rat
  role : Option String
  assertsRevision : Bool
deriving DecidableEq, Repr

/-- A PROV document as the builders accumulate it: element records (by their
PROV identifier, in creation order) and relation records. -/
structure ProvDocument where
  elements : List String
  relations : List ProvRelationRec
deriving DecidableEq, Repr

/-- The empty document every sub-model builder starts from
(`Model.__post_init__` creates a fresh `ProvDocument`). -/
def ProvDocument.empty : ProvDocument := ⟨[], []⟩

/-- `ProvContext.add_element` (`prov/model.py`): records a new element node.
The builders never pass `check_exists=True`, so the `new_record` path is
always taken. -/
def add_element (d : ProvDocument) (identifier : String) : ProvDocument :=
  { d with elements := d.elements ++ [identifier] }

/-- The relation record produced by `ProvContext.add_relation`
(`prov/model.py`, lines 67-103): the identifier is the deterministic string
`relation:<source>:<target>` unless the relation class is
`ProvSpecialization` or `ProvMembership`, in which case it is `None`; the
PROV "Revision" type is asserted exactly for the `ProvRevision` class. -/
def mkRelation (kind : RelationKind) (source target : String)
    (time : Option Rat) (role : Option String) : ProvRelationRec :=
  { kind := kind
    source := source
    target := target
    identifier :=
      if kind = .specialization ∨ kind = .membership then none
      else some ("relation:" ++ source ++ ":" ++ target)
    time := time
    role := role
    assertsRevision := kind = .revision }

/-- `ProvContext.add_relation`: appends the relation record to the document. -/
def add_relation (d : ProvDocument) (kind : RelationKind) (source target : String)
    (time : Option Rat) (role : Option String) : ProvDocument :=
  { d with relations := d.relations ++ [mkRelation kind source target time role] }

/-- The heap of Python list objects referenced by `PipelineVersionRevision`
records: `opLists` and `conLists` are addressed by position.  Mutating a list
in place (`append`, `remove`) updates the heap cell, which is observed by
every record holding that reference — exactly Python's aliasing. -/
structure Heap where
  opLists : List (List OperatorRevision)
  conLists : List (List Connection)
deriving DecidableEq, Repr

/-- Read the operator-revision list object at reference `r`. -/
def Heap.getOps (h : Heap) (r : Nat) : List OperatorRevision :=
  h.opLists.getD r []

/-- Overwrite the operator-revision list object at reference `r` (an in-place
mutation of the Python list). -/
def Heap.setOps (h : Heap) (r : Nat) (l : List OperatorRevision) : Heap :=
  { h with opLists := h.opLists.set r l }

/-- Allocate a fresh operator-revision list object. -/
def Heap.allocOps (h : Heap) (l : List OperatorRevision) : Heap × Nat :=
  ({ h with opLists := h.opLists ++ [l] }, h.opLists.length)

/-- Read the connection list object at reference `r`. -/
def Heap.getCons (h : Heap) (r : Nat) : List Connection :=
  h.conLists.getD r []

/-- Overwrite the connection list object at reference `r`. -/
def Heap.setCons (h : Heap) (r : Nat) (l : List Connection) : Heap :=
  { h with conLists := h.conLists.set r l }

/-- Allocate a fresh connection list object. -/
def Heap.allocCons (h : Heap) (l : List Connection) : Heap × Nat :=
  ({ h with conLists := h.conLists ++ [l] }, h.conLists.length)

/-- `OperatorCreationPipelineChange` (`domain/model.py`): the subtype fixes
`pipeline_change_type` and leaves `connection` unset. -/
structure OperatorCreationPipelineChange where
  uuid : Nat
  time : Rat
  operator_revision : OperatorRevision
  pipeline_version_revision : PipelineVersionRevision
  parent_pipeline_change_uuid : Option Nat
deriving DecidableEq, Repr

/-- The base `PipelineChange` record an `OperatorCreationPipelineChange`
amounts to after `__post_init__`. -/
def OperatorCreationPipelineChange.toBase (c : OperatorCreationPipelineChange) : PipelineChange :=
  { uuid := c.uuid
    pipeline_change_type := .operator_creation
    time := c.time
    operator_revision := some c.operator_revision
    connection := none
    pipeline_version_revision := c.pipeline_version_revision
    parent_pipeline_change_uuid := c.parent_pipeline_change_uuid }

/-- PROV identifier, inherited from `PipelineChange`. -/
def OperatorCreationPipelineChange.prov_identifier (c : OperatorCreationPipelineChange) : String :=
  c.toBase.prov_identifier

/-- `OperatorModificationPipelineChange` (`domain/model.py`). -/
structure OperatorModificationPipelineChange where
  uuid : Nat
  time : Rat
  operator_revision : OperatorRevision
  pipeline_version_revision : PipelineVersionRevision
  parent_pipeline_change_uuid : Option Nat
deriving DecidableEq, Repr

/-- The base `PipelineChange` record after `__post_init__`. -/
def OperatorModificationPipelineChange.toBase (c : OperatorModificationPipelineChange) : PipelineChange :=
  { uuid := c.uuid
    pipeline_change_type := .operator_modification
    time := c.time
    operator_revision := some c.operator_revision
    connection := none
    pipeline_version_revision := c.pipeline_version_revision
    parent_pipeline_change_uuid := c.parent_pipeline_change_uuid }

/-- PROV identifier, inherited from `PipelineChange`. -/
def OperatorModificationPipelineChange.prov_identifier (c : OperatorModificationPipelineChange) : String :=
  c.toBase.prov_identifier

/-- `OperatorDeletionPipelineChange` (`domain/model.py`). -/
structure OperatorDeletionPipelineChange where
  uuid : Nat
  time : Rat
  operator_revision : OperatorRevision
  pipeline_version_revision : PipelineVersionRevision
  parent_pipeline_change_uuid : Option Nat
deriving DecidableEq, Repr

/-- The base `PipelineChange` record after `__post_init__`. -/
def OperatorDeletionPipelineChange.toBase (c : OperatorDeletionPipelineChange) : PipelineChange :=
  { uuid := c.uuid
    pipeline_change_type := .operator_deletion
    time := c.time
    operator_revision := some c.operator_revision
    connection := none
    pipeline_version_revision := c.pipeline_version_revision
    parent_pipeline_change_uuid := c.parent_pipeline_change_uuid }

/-- PROV identifier, inherited from `PipelineChange`. -/
def OperatorDeletionPipelineChange.prov_identifier (c : OperatorDeletionPipelineChange) : String :=
  c.toBase.prov_identifier

/-- `ConnectionCreationPipelineChange` (`domain/model.py`). -/
structure ConnectionCreationPipelineChange where
  uuid : Nat
  time : Rat
  connection : Connection
  pipeline_version_revision : PipelineVersionRevision
  parent_pipeline_change_uuid : Option Nat
deriving DecidableEq, Repr

/-- The base `PipelineChange` record after `__post_init__`. -/
def ConnectionCreationPipelineChange.toBase (c : ConnectionCreationPipelineChange) : PipelineChange :=
  { uuid := c.uuid
    pipeline_change_type := .connection_creation
    time := c.time
    operator_revision := none
    connection := some c.connection
    pipeline_version_revision := c.pipeline_version_revision
    parent_pipeline_change_uuid := c.parent_pipeline_change_uuid }

/-- PROV identifier, inherited from `PipelineChange`. -/
def ConnectionCreationPipelineChange.prov_identifier (c : ConnectionCreationPipelineChange) : String :=
  c.toBase.prov_identifier

/-- `ConnectionDeletionPipelineChange` (`domain/model.py`). -/
structure ConnectionDeletionPipelineChange where
  uuid : Nat
  time : Rat
  connection : Connection
  pipeline_version_revision : PipelineVersionRevision
  parent_pipeline_change_uuid : Option Nat
deriving DecidableEq, Repr

/-- The base `PipelineChange` record after `__post_init__`. -/
def ConnectionDeletionPipelineChange.toBase (c : ConnectionDeletionPipelineChange) : PipelineChange :=
  { uuid := c.uuid
    pipeline_change_type := .connection_deletion
    time := c.time
    operator_revision := none
    connection := some c.connection
    pipeline_version_revision := c.pipeline_version_revision
    parent_pipeline_change_uuid := c.parent_pipeline_change_uuid }

/-- PROV identifier, inherited from `PipelineChange`. -/
def ConnectionDeletionPipelineChange.prov_identifier (c : ConnectionDeletionPipelineChange) : String :=
  c.toBase.prov_identifier

/-- `PipelineVersionCreationModel` (`prov/model.py`, lines 125-138). -/
structure PipelineVersionCreationModel where
  pipeline_version_creation : PipelineVersionCreation
  parent_pipeline_version_revision : Option PipelineVersionRevision
  parent_pipeline_version_creation : Option PipelineVersionCreation
deriving DecidableEq, Repr

/-- `PipelineVersionCreationModel.build` (`prov/model.py`, lines 140-250).
The heap argument dereferences the revision's operator and connection list
objects, which the Python builder reads through the record. -/
def PipelineVersionCreationModel.build (m : PipelineVersionCreationModel) (h : Heap) : ProvDocument :=
  let pvc := m.pipeline_version_creation
  let d := add_element ProvDocument.empty pvc.prov_identifier
  let d :=
    match m.parent_pipeline_version_creation with
    | some pc =>
        add_relation (add_element d pc.prov_identifier) .communication
          pvc.prov_identifier pc.prov_identifier none none
    | none => d
  let pvr := pvc.pipeline_version_revision
  let d := add_element d pvr.prov_identifier
  let d := (h.getOps pvr.operatorsRef).foldl (fun d orv =>
      let d := add_element d orv.prov_identifier
      let d := add_relation d .membership pvr.prov_identifier orv.prov_identifier none none
      let d := add_element d orv.operator.prov_identifier
      add_relation d .specialization orv.prov_identifier orv.operator.prov_identifier none none) d
  let d := (h.getCons pvr.connectionsRef).foldl (fun d c =>
      let d := add_element d c.prov_identifier
      add_relation d .membership pvr.prov_identifier c.prov_identifier none none) d
  let d := add_relation d .generation pvr.prov_identifier pvc.prov_identifier
      (some pvc.time) (some ProvRole.CREATED_PIPELINE_VERSION_REVISION)
  let d :=
    match m.parent_pipeline_version_revision with
    | some pr =>
        let d := add_element d pr.prov_identifier
        let d := add_relation d .derivation pvr.prov_identifier pr.prov_identifier none none
        add_relation d .usage pvc.prov_identifier pr.prov_identifier
          (some pvc.time) (some ProvRole.USED_PARENT_PIPELINE_VERSION_REVISION)
    | none => d
  let pv := pvr.pipeline_version
  let d := add_element d pv.prov_identifier
  let d := add_relation d .specialization pvr.prov_identifier pv.prov_identifier none none
  let d := add_relation d .generation pv.prov_identifier pvc.prov_identifier
      (some pvc.time) (some ProvRole.CREATED_PIPELINE_VERSION)
  match m.parent_pipeline_version_creation with
  | some pc =>
      let ppv := pc.pipeline_version_revision.pipeline_version
      let d := add_element d ppv.prov_identifier
      -- the Python source dereferences `self.parent_pipeline_version_revision`
      -- here unguarded; the translator always passes it alongside a parent
      -- creation, so the `none` fallback is unreachable in translated states
      let prId :=
        match m.parent_pipeline_version_revision with
        | some pr => pr.prov_identifier
        | none => "None"
      let d := add_relation d .specialization prId ppv.prov_identifier none none
      let d := add_relation d .derivation pv.prov_identifier ppv.prov_identifier none none
      add_relation d .usage pvc.prov_identifier ppv.prov_identifier
        (some pvc.time) (some ProvRole.USED_PARENT_PIPELINE_VERSION)
  | none => d

/-- `OperatorCreationModel` (`prov/model.py`, lines 253-266). -/
structure OperatorCreationModel where
  pipeline_change : OperatorCreationPipelineChange
  parent_pipeline_change : Option PipelineChange
  parent_pipeline_version_revision : Option PipelineVersionRevision
deriving DecidableEq, Repr

/-- `OperatorCreationModel.build` (`prov/model.py`, lines 268-365). -/
def OperatorCreationModel.build (m : OperatorCreationModel) (h : Heap) : ProvDocument :=
  let pcId := m.pipeline_change.prov_identifier
  let d := add_element ProvDocument.empty pcId
  let d :=
    match m.parent_pipeline_change with
    | some pp =>
        add_relation (add_element d pp.prov_identifier) .communication
          pcId pp.prov_identifier none none
    | none => d
  let orv := m.pipeline_change.operator_revision
  let d := add_element d orv.prov_identifier
  let d := add_relation d .generation orv.prov_identifier pcId
      (some m.pipeline_change.time) (some ProvRole.CREATED_OPERATOR)
  let d := add_element d orv.operator.prov_identifier
  let d := add_relation d .specialization orv.prov_identifier orv.operator.prov_identifier none none
  let d := orv.parameters.foldl (fun d p =>
      add_relation (add_element d p.prov_identifier) .membership
        orv.prov_identifier p.prov_identifier none none) d
  let pvr := m.pipeline_change.pipeline_version_revision
  let d := add_element d pvr.prov_identifier
  let d := (h.getOps pvr.operatorsRef).foldl (fun d o =>
      add_relation (add_element d o.prov_identifier) .membership
        pvr.prov_identifier o.prov_identifier none none) d
  let d := (h.getCons pvr.connectionsRef).foldl (fun d c =>
      add_relation (add_element d c.prov_identifier) .membership
        pvr.prov_identifier c.prov_identifier none none) d
  let d := add_relation d .generation pvr.prov_identifier pcId
      (some m.pipeline_change.time) (some ProvRole.CREATED_PIPELINE_VERSION_REVISION)
  let d := add_element d pvr.pipeline_version.prov_identifier
  let d := add_relation d .specialization pvr.prov_identifier
      pvr.pipeline_version.prov_identifier none none
  match m.parent_pipeline_version_revision with
  | some pr =>
      let d := add_element d pr.prov_identifier
      let d := add_relation d .revision pvr.prov_identifier pr.prov_identifier none none
      add_relation d .usage pcId pr.prov_identifier
        (some m.pipeline_change.time) (some ProvRole.USED_PARENT_PIPELINE_VERSION_REVISION)
  | none => d

/-- `OperatorModificationModel` (`prov/model.py`, lines 368-383). -/
structure OperatorModificationModel where
  pipeline_change : OperatorModificationPipelineChange
  parent_pipeline_change : Option PipelineChange
  parent_operator_revision : Option OperatorRevision
  parent_pipeline_version_revision : Option PipelineVersionRevision
deriving DecidableEq, Repr

/-- `OperatorModificationModel.build` (`prov/model.py`, lines 385-498). -/
def OperatorModificationModel.build (m : OperatorModificationModel) (h : Heap) : ProvDocument :=
  let pcId := m.pipeline_change.prov_identifier
  let d := add_element ProvDocument.empty pcId
  let d :=
    match m.parent_pipeline_change with
    | some pp =>
        add_relation (add_element d pp.prov_identifier) .communication
          pcId pp.prov_identifier none none
    | none => d
  let orv := m.pipeline_change.operator_revision
  let d := add_element d orv.prov_identifier
  let d := add_relation d .generation orv.prov_identifier pcId
      (some m.pipeline_change.time) (some ProvRole.MODIFIED_OPERATOR)
  let d :=
    match m.parent_operator_revision with
    | some por =>
        let d := add_element d por.prov_identifier
        let d := add_relation d .revision orv.prov_identifier por.prov_identifier none none
        add_relation d .usage pcId por.prov_identifier
          (some m.pipeline_change.time) (some ProvRole.USED_PARENT_OPERATOR_REVISION)
    | none => d
  let d := add_element d orv.operator.prov_identifier
  let d := add_relation d .specialization orv.prov_identifier orv.operator.prov_identifier none none
  let d := orv.parameters.foldl (fun d p =>
      add_relation (add_element d p.prov_identifier) .membership
        orv.prov_identifier p.prov_identifier none none) d
  let pvr := m.pipeline_change.pipeline_version_revision
  let d := add_element d pvr.prov_identifier
  let d := (h.getOps pvr.operatorsRef).foldl (fun d o =>
      add_relation (add_element d o.prov_identifier) .membership
        pvr.prov_identifier o.prov_identifier none none) d
  let d := (h.getCons pvr.connectionsRef).foldl (fun d c =>
      add_relation (add_element d c.prov_identifier) .membership
        pvr.prov_identifier c.prov_identifier none none) d
  let d := add_relation d .generation pvr.prov_identifier pcId
      (some m.pipeline_change.time) (some ProvRole.CREATED_PIPELINE_VERSION_REVISION)
  let d := add_element d pvr.pipeline_version.prov_identifier
  let d := add_relation d .specialization pvr.prov_identifier
      pvr.pipeline_version.prov_identifier none none
  match m.parent_pipeline_version_revision with
  | some pr =>
      let d := add_element d pr.prov_identifier
      let d := add_relation d .revision pvr.prov_identifier pr.prov_identifier none none
      add_relation d .usage pcId pr.prov_identifier
        (some m.pipeline_change.time) (some ProvRole.USED_PARENT_PIPELINE_VERSION_REVISION)
  | none => d

/-- `OperatorDeletionModel` (`prov/model.py`, lines 501-514). -/
structure OperatorDeletionModel where
  pipeline_change : OperatorDeletionPipelineChange
  parent_pipeline_change : Option PipelineChange
  parent_pipeline_version_revision : Option PipelineVersionRevision
deriving DecidableEq, Repr

/-- `OperatorDeletionModel.build` (`prov/model.py`, lines 516-604). -/
def OperatorDeletionModel.build (m : OperatorDeletionModel) (h : Heap) : ProvDocument :=
  let pcId := m.pipeline_change.prov_identifier
  let d := add_element ProvDocument.empty pcId
  let d :=
    match m.parent_pipeline_change with
    | some pp =>
        add_relation (add_element d pp.prov_identifier) .communication
          pcId pp.prov_identifier none none
    | none => d
  let orv := m.pipeline_change.operator_revision
  let d := add_element d orv.prov_identifier
  let d := add_relation d .invalidation orv.prov_identifier pcId
      (some m.pipeline_change.time) (some ProvRole.DELETED_OPERATOR)
  let d := add_element d orv.operator.prov_identifier
  let d := add_relation d .specialization orv.prov_identifier orv.operator.prov_identifier none none
  let pvr := m.pipeline_change.pipeline_version_revision
  let d := add_element d pvr.prov_identifier
  let d := (h.getOps pvr.operatorsRef).foldl (fun d o =>
      add_relation (add_element d o.prov_identifier) .membership
        pvr.prov_identifier o.prov_identifier none none) d
  let d := (h.getCons pvr.connectionsRef).foldl (fun d c =>
      add_relation (add_element d c.prov_identifier) .membership
        pvr.prov_identifier c.prov_identifier none none) d
  let d := add_relation d .generation pvr.prov_identifier pcId
      (some m.pipeline_change.time) (some ProvRole.CREATED_PIPELINE_VERSION_REVISION)
  let d := add_element d pvr.pipeline_version.prov_identifier
  let d := add_relation d .specialization pvr.prov_identifier
      pvr.pipeline_version.prov_identifier none none
  match m.parent_pipeline_version_revision with
  | some pr =>
      let d := add_element d pr.prov_identifier
      let d := add_relation d .revision pvr.prov_identifier pr.prov_identifier none none
      add_relation d .usage pcId pr.prov_identifier
        (some m.pipeline_change.time) (some ProvRole.USED_PARENT_PIPELINE_VERSION_REVISION)
  | none => d

/-- `ConnectionCreationModel` (`prov/model.py`, lines 607-620). -/
structure ConnectionCreationModel where
  pipeline_change : ConnectionCreationPipelineChange
  parent_pipeline_change : Option PipelineChange
  parent_pipeline_version_revision : Option PipelineVersionRevision
deriving DecidableEq, Repr

/-- `ConnectionCreationModel.build` (`prov/model.py`, lines 622-699). -/
def ConnectionCreationModel.build (m : ConnectionCreationModel) (h : Heap) : ProvDocument :=
  let pcId := m.pipeline_change.prov_identifier
  let d := add_element ProvDocument.empty pcId
  let d :=
    match m.parent_pipeline_change with
    | some pp =>
        add_relation (add_element d pp.prov_identifier) .communication
          pcId pp.prov_identifier none none
    | none => d
  let conn := m.pipeline_change.connection
  let d := add_element d conn.prov_identifier
  let d := add_relation d .generation conn.prov_identifier pcId
      (some m.pipeline_change.time) (some ProvRole.CREATED_CONNECTION)
  let pvr := m.pipeline_change.pipeline_version_revision
  let d := add_element d pvr.prov_identifier
  let d := (h.getOps pvr.operatorsRef).foldl (fun d o =>
      add_relation (add_element d o.prov_identifier) .membership
        pvr.prov_identifier o.prov_identifier none none) d
  let d := (h.getCons pvr.connectionsRef).foldl (fun d c =>
      add_relation (add_element d c.prov_identifier) .membership
        pvr.prov_identifier c.prov_identifier none none) d
  let d := add_relation d .generation pvr.prov_identifier pcId
      (some m.pipeline_change.time) (some ProvRole.CREATED_PIPELINE_VERSION_REVISION)
  let d := add_element d pvr.pipeline_version.prov_identifier
  let d := add_relation d .specialization pvr.prov_identifier
      pvr.pipeline_version.prov_identifier none none
  match m.parent_pipeline_version_revision with
  | some pr =>
      let d := add_element d pr.prov_identifier
      let d := add_relation d .revision pvr.prov_identifier pr.prov_identifier none none
      add_relation d .usage pcId pr.prov_identifier
        (some m.pipeline_change.time) (some ProvRole.USED_PARENT_PIPELINE_VERSION_REVISION)
  | none => d

/-- `ConnectionDeletionModel` (`prov/model.py`, lines 702-715). -/
structure ConnectionDeletionModel where
  pipeline_change : ConnectionDeletionPipelineChange
  parent_pipeline_change : Option PipelineChange
  parent_pipeline_version_revision : Option PipelineVersionRevision
deriving DecidableEq, Repr

/-- `ConnectionDeletionModel.build` (`prov/model.py`, lines 717-794). -/
def ConnectionDeletionModel.build (m : ConnectionDeletionModel) (h : Heap) : ProvDocument :=
  let pcId := m.pipeline_change.prov_identifier
  let d := add_element ProvDocument.empty pcId
  let d :=
    match m.parent_pipeline_change with
    | some pp =>
        add_relation (add_element d pp.prov_identifier) .communication
          pcId pp.prov_identifier none none
    | none => d
  let conn := m.pipeline_change.connection
  let d := add_element d conn.prov_identifier
  let d := add_relation d .invalidation conn.prov_identifier pcId
      (some m.pipeline_change.time) (some ProvRole.DELETED_CONNECTION)
  let pvr := m.pipeline_change.pipeline_version_revision
  let d := add_element d pvr.prov_identifier
  let d := (h.getOps pvr.operatorsRef).foldl (fun d o =>
      add_relation (add_element d o.prov_identifier) .membership
        pvr.prov_identifier o.prov_identifier none none) d
  let d := (h.getCons pvr.connectionsRef).foldl (fun d c =>
      add_relation (add_element d c.prov_identifier) .membership
        pvr.prov_identifier c.prov_identifier none none) d
  let d := add_relation d .generation pvr.prov_identifier pcId
      (some m.pipeline_change.time) (some ProvRole.CREATED_PIPELINE_VERSION_REVISION)
  let d := add_element d pvr.pipeline_version.prov_identifier
  let d := add_relation d .specialization pvr.prov_identifier
      pvr.pipeline_version.prov_identifier none none
  match m.parent_pipeline_version_revision with
  | some pr =>
      let d := add_element d pr.prov_identifier
      let d := add_relation d .revision pvr.prov_identifier pr.prov_identifier none none
      add_relation d .usage pcId pr.prov_identifier
        (some m.pipeline_change.time) (some ProvRole.USED_PARENT_PIPELINE_VERSION_REVISION)
  | none => d

/-- `OperationExecutionModel` (`prov/model.py`, lines 797-806). -/
structure OperationExecutionModel where
  operator_execution : OperatorExecution
deriving DecidableEq, Repr

/-- `OperationExecutionModel.build` (`prov/model.py`, lines 808-858). -/
def OperationExecutionModel.build (m : OperationExecutionModel) : ProvDocument :=
  let ex := m.operator_execution
  let d := add_element ProvDocument.empty ex.prov_identifier
  let orv := ex.operator_revision
  let d := orv.parameters.foldl (fun d p =>
      add_relation (add_element d p.prov_identifier) .membership
        orv.prov_identifier p.prov_identifier none none) d
  let d := add_element d orv.prov_identifier
  let d := add_relation d .usage ex.prov_identifier orv.prov_identifier
      (some ex.time) (some ProvRole.USED_OPERATOR_REVISION)
  let run := ex.operator_run
  let d := add_element d run.prov_identifier
  let d := add_relation d .generation run.prov_identifier ex.prov_identifier
      (some ex.time) (some ProvRole.CREATED_OPERATOR_RUN)
  run.metrics.foldl (fun d mt =>
      let d := add_element d mt.prov_identifier
      let d := add_relation d .membership run.prov_identifier mt.prov_identifier none none
      add_relation d .membership orv.prov_identifier mt.prov_identifier none none) d

/-- The sub-model instances the translator hands to `add_model`
(`prov/model.py`'s seven `Model` subclasses). -/
inductive Model where
  | pipelineVersionCreation : PipelineVersionCreationModel → Model
  | operatorCreation : OperatorCreationModel → Model
  | operatorModification : OperatorModificationModel → Model
  | operatorDeletion : OperatorDeletionModel → Model
  | connectionCreation : ConnectionCreationModel → Model
  | connectionDeletion : ConnectionDeletionModel → Model
  | operationExecution : OperationExecutionModel → Model
deriving DecidableEq, Repr

/-- Dispatch to the matching `build` (the abstract `Model.build` of
`prov/model.py`), reading list objects through the heap as the Python
builders read them through the records. -/
def Model.build (m : Model) (h : Heap) : ProvDocument :=
  match m with
  | .pipelineVersionCreation m => m.build h
  | .operatorCreation m => m.build h
  | .operatorModification m => m.build h
  | .operatorDeletion m => m.build h
  | .connectionCreation m => m.build h
  | .connectionDeletion m => m.build h
  | .operationExecution m => m.build

/-- Metric data carried by a debug step (`data.py`, class `MetricData`). -/
structure MetricData where
  name : String
  value : Rat
deriving DecidableEq, Repr

/-- Pipeline change data (`data.py`): the abstract `PipelineChangeData` with
its five concrete subclasses.  Each subclass sets `change_type` in
`__post_init__` to the matching `PipelineChangeType`, so the constructor
already determines both the `isinstance` test and the `change_type` test of
the translator's dispatch. -/
inductive PipelineChangeData where
  | operatorCreation (id : String) (operator_id : Int) (operator_name : String)
      (operator_data : List (String × PyVal))
  | operatorModification (id : String) (operator_id : Int) (operator_name : String)
      (changed_parameter : String) (changed_value : Rat)
  | operatorDeletion (id : String) (operator_id : Int) (operator_name : String)
  | connectionCreation (id : String) (connection_id : Int) (from_operator_id : Int)
      (to_operator_id : Int) (from_socket_id : Int) (to_socket_id : Int)
  | connectionDeletion (id : String) (connection_id : Int) (from_operator_id : Int)
      (to_operator_id : Int) (from_socket_id : Int) (to_socket_id : Int)
deriving DecidableEq, Repr

/-- Debug step data (`data.py`, class `DebugStepData`). -/
structure DebugStepData where
  id : String
  timestamp : Rat
  branch_id : Int
  branch_local_step_id : Int
  parent_branch_id : Option Int
  operator_id : Int
  operator_name : String
  operator_step_type : OperatorStepType
  operator_metrics : Option (List MetricData)
  changes : Option (List PipelineChangeData)
deriving DecidableEq, Repr

/-- The translator's view of the object store: the per-type record lists of
`InMemoryRepository` (`storage/repository.py`), insertion-ordered.  `get`
returns the first record matching all keyword filters and `list_all` all of
them; the specialised operations below inline the exact filters used by the
call sites in `provinspector.py`. -/
structure Repo where
  versions : List PipelineVersion
  revisions : List PipelineVersionRevision
  creations : List PipelineVersionCreation
  changes : List PipelineChange
deriving DecidableEq, Repr

/-- The store starts empty. -/
def Repo.empty : Repo := ⟨[], [], [], []⟩

/-- `get(resource_type=PipelineVersion, id_=...)`: first stored version with
the given id. -/
def Repo.getVersion (repo : Repo) (id_ : Int) : Option PipelineVersion :=
  repo.versions.find? (fun v => v.id_ == id_)

/-- `get(resource_type=PipelineVersion, id_=data.parent_branch_id)`: the
filter value may be Python `None`, which no stored integer id equals. -/
def Repo.getVersionOpt (repo : Repo) (id_ : Option Int) : Option PipelineVersion :=
  match id_ with
  | none => none
  | some i => repo.getVersion i

/-- `get(resource_type=PipelineVersionRevision, pipeline_version=..., id_=...)`:
first stored revision of the version carrying the given sequence id. -/
def Repo.getRevision (repo : Repo) (pv : PipelineVersion) (id_ : Int) :
    Option PipelineVersionRevision :=
  repo.revisions.find? (fun r => r.pipeline_version == pv && r.id_ == id_)

/-- `list_all(resource_type=PipelineVersionRevision, pipeline_version=...)`. -/
def Repo.listRevisions (repo : Repo) (pv : PipelineVersion) :
    List PipelineVersionRevision :=
  repo.revisions.filter (fun r => r.pipeline_version == pv)

/-- `get(resource_type=PipelineVersionCreation, pipeline_version_revision=...)`. -/
def Repo.getCreation (repo : Repo) (pvr : PipelineVersionRevision) :
    Option PipelineVersionCreation :=
  repo.creations.find? (fun c => c.pipeline_version_revision == pvr)

/-- `list_all(resource_type=PipelineChange, pipeline_version_revision=...)`.
The translator never inserts a `PipelineChange` into the store, so this list
is empty in every translated state; the operation is kept because `update`
invokes it before every change model. -/
def Repo.listChanges (repo : Repo) (pvr : PipelineVersionRevision) :
    List PipelineChange :=
  repo.changes.filter (fun c => c.pipeline_version_revision == pvr)

/-- `add` for a `PipelineVersion` (append, preserving insertion order). -/
def Repo.addVersion (repo : Repo) (v : PipelineVersion) : Repo :=
  { repo with versions := repo.versions ++ [v] }

/-- `add` for a `PipelineVersionRevision`. -/
def Repo.addRevision (repo : Repo) (r : PipelineVersionRevision) : Repo :=
  { repo with revisions := repo.revisions ++ [r] }

/-- `add` for a `PipelineVersionCreation`. -/
def Repo.addCreation (repo : Repo) (c : PipelineVersionCreation) : Repo :=
  { repo with creations := repo.creations ++ [c] }

/-- Python exceptions `update` can raise: `StopIteration` from `next` on an
exhausted generator, `AttributeError` from attribute access on `None`, and
`IndexError` from `[-1]` on an empty list. -/
inductive PyErr where
  | stopIteration
  | attributeError
  | indexError
deriving DecidableEq, Repr

/-- The module-level constants of `provinspector.py` (lines 50-56).  The
initial creation uuid is a single `uuid4()` drawn at import time, modelled by
the reserved number 0 (the state's fresh supply starts at 1). -/
def INITIAL_PIPELINE_VERSION_ID : Int := 0

/-- Initial pipeline version revision id. -/
def INITIAL_PIPELINE_VERSION_REVISION_ID : Int := 0

/-- Reserved uuid for the import-time initial creation id. -/
def INITIAL_PIPELINE_VERSION_CREATION_ID : Nat := 0

/-- Initial timestamp (epoch 0). -/
def INITIAL_TIME : Rat := 0

/-- The mutable state of a `ProvInspector` (`provinspector.py`, lines 59-67):
the object store, the heap of list objects, the `initialized` flag and the
two cached last-used ids; `next_uuid` models the `uuid4()` supply; `models`
records the sub-models handed to `add_model` in order, and `docs` the
documents `add_model` built from them and imported into the provenance
database. -/
structure ProvState where
  repo : Repo
  heap : Heap
  initialized : Bool
  last_pipeline_version_id : Int
  last_pipeline_version_revision_id : Int
  next_uuid : Nat
  models : List Model
  docs : List ProvDocument
deriving DecidableEq, Repr

/-- A freshly constructed `ProvInspector`. -/
def initialProvState : ProvState :=
  { repo := Repo.empty
    heap := ⟨[], []⟩
    initialized := false
    last_pipeline_version_id := INITIAL_PIPELINE_VERSION_ID
    last_pipeline_version_revision_id := INITIAL_PIPELINE_VERSION_REVISION_ID
    next_uuid := 1
    models := []
    docs := [] }

/-- Draw a fresh uuid (`str(uuid4())` in the source). -/
def ProvState.freshUuid (s : ProvState) : Nat × ProvState :=
  (s.next_uuid, { s with next_uuid := s.next_uuid + 1 })

/-- `ProvInspector.add_model`: build the sub-model graph and import it into
the provenance database (`provinspector.py`, lines 88-97). -/
def ProvState.add_model (s : ProvState) (m : Model) : ProvState :=
  { s with models := s.models ++ [m], docs := s.docs ++ [m.build s.heap] }

/-- `ProvInspector.clear` (`provinspector.py`, lines 76-86): empties the
object store and the provenance database and resets `initialized`; the two
cached ids are left as they are. -/
def ProvState.clear (s : ProvState) : ProvState :=
  { s with repo := Repo.empty, models := [], docs := [], initialized := false }

/-- The loop body of `ProvInspector.initialize` (`provinspector.py`, lines
112-142): an operator-creation record contributes an initial
`OperatorRevision`, a connection-creation record a `Connection`; other
change kinds are ignored.  The state is threaded for the `uuid4()` draws. -/
def initAccumulate (acc : List OperatorRevision × List Connection × ProvState)
    (cd : PipelineChangeData) :
    List OperatorRevision × List Connection × ProvState :=
  let (ops, cons, s) := acc
  match cd with
  | .operatorCreation _ oid oname odata =>
      let (u, s) := s.freshUuid
      let orv : OperatorRevision :=
        { uuid := u, id_ := 0, operator := ⟨oid, oname⟩
          parameters := odata.map (fun kv => ⟨kv.1, kv.2⟩)
          parent_operator_revision_uuid := none }
      (ops ++ [orv], cons, s)
  | .connectionCreation _ cid fo t _ _ =>
      (ops, cons ++ [⟨cid, fo, t⟩], s)
  | _ => (ops, cons, s)

/-- `ProvInspector.initialize` (`provinspector.py`, lines 99-183): if not yet
initialized, partition the change data into initial operator revisions and
connections, create the genesis version, revision and creation, store them,
emit the creation model and set `initialized`; otherwise warn and change
nothing.  The returned flag is true when the duplicate-initialization warning
was emitted. -/
def initializeGraph (s : ProvState) (data : List PipelineChangeData) : ProvState × Bool :=
  if s.initialized then (s, true)
  else
    let init := data.foldl initAccumulate ([], [], s)
    let operators := init.1
    let connections := init.2.1
    let s := init.2.2
    let pipeline_version : PipelineVersion := ⟨INITIAL_PIPELINE_VERSION_ID, none⟩
    let (u1, s) := s.freshUuid
    let (h, opsRef) := s.heap.allocOps operators
    let (h, consRef) := h.allocCons connections
    let s := { s with heap := h }
    let pipeline_version_revision : PipelineVersionRevision :=
      { uuid := u1, id_ := INITIAL_PIPELINE_VERSION_REVISION_ID
        pipeline_version := pipeline_version
        parent_pipeline_version_revision_uuid := none
        operatorsRef := opsRef, connectionsRef := consRef }
    let pipeline_version_creation : PipelineVersionCreation :=
      { uuid := INITIAL_PIPELINE_VERSION_CREATION_ID
        pipeline_version_revision := pipeline_version_revision
        parent_pipeline_version_creation_uuid := none
        time := INITIAL_TIME }
    let s := { s with repo :=
      (((s.repo.addVersion pipeline_version).addRevision pipeline_version_revision).addCreation
        pipeline_version_creation) }
    let s := s.add_model (.pipelineVersionCreation
      ⟨pipeline_version_creation, none, none⟩)
    ({ s with initialized := true }, false)

/-- Outcome of the branch-resolution phase of `update` (`provinspector.py`,
lines 197-314).  `ok` carries the updated state, the resolved
`pipeline_version` and the parent revision; the parent is an `Option`
because the cached-id fetch (`get`, line 246) may return `None`, in which
case the error only surfaces at the attribute access on line 318.  `err`
models an exception raised inside resolution itself. -/
inductive ResolveOutcome where
  | ok (s : ProvState) (pipeline_version : PipelineVersion)
      (parent : Option PipelineVersionRevision)
  | err (s : ProvState) (e : PyErr)

/-- Branch resolution (`provinspector.py`, lines 197-314). -/
def resolveBranch (s : ProvState) (data : DebugStepData) : ResolveOutcome :=
  if s.initialized = false ∧ s.repo.versions = [] then
    -- lines 197-233: create the initial version, an empty genesis revision
    -- and its creation, and emit the creation model with no parents
    let pipeline_version : PipelineVersion := ⟨0, none⟩
    let (u1, s) := s.freshUuid
    let (h, opsRef) := s.heap.allocOps []
    let (h, consRef) := h.allocCons []
    let s := { s with heap := h }
    let rev : PipelineVersionRevision :=
      { uuid := u1, id_ := 0, pipeline_version := pipeline_version
        parent_pipeline_version_revision_uuid := none
        operatorsRef := opsRef, connectionsRef := consRef }
    let (u2, s) := s.freshUuid
    let pvc : PipelineVersionCreation :=
      { uuid := u2, pipeline_version_revision := rev
        parent_pipeline_version_creation_uuid := none, time := data.timestamp }
    let s := { s with repo :=
      ((s.repo.addVersion pipeline_version).addRevision rev).addCreation pvc }
    let s := s.add_model (.pipelineVersionCreation ⟨pvc, none, none⟩)
    .ok s pipeline_version (some rev)
  else
    match s.repo.getVersion data.branch_id with
    | some pipeline_version =>
        if s.last_pipeline_version_id = data.branch_id then
          -- line 246: O(1) fetch through the cached revision id
          .ok s pipeline_version
            (s.repo.getRevision pipeline_version s.last_pipeline_version_revision_id)
        else
          -- line 253: last stored revision of the branch; `[-1]` raises on []
          match (s.repo.listRevisions pipeline_version).getLast? with
          | some r => .ok s pipeline_version (some r)
          | none => .err s .indexError
    | none =>
        -- lines 259-314: create a new branch below the parent branch
        match s.repo.getVersionOpt data.parent_branch_id with
        | none => .err s .attributeError   -- line 266: `None.id_`
        | some parent_pipeline_version =>
            let pipeline_version : PipelineVersion :=
              ⟨data.branch_id, some parent_pipeline_version.id_⟩
            match (s.repo.listRevisions parent_pipeline_version).getLast? with
            | none => .err s .indexError   -- line 272: `[-1]` on []
            | some pprev =>
                let (u1, s) := s.freshUuid
                let rev : PipelineVersionRevision :=
                  { uuid := u1, id_ := 0, pipeline_version := pipeline_version
                    parent_pipeline_version_revision_uuid := some pprev.uuid
                    operatorsRef := pprev.operatorsRef
                    connectionsRef := pprev.connectionsRef }
                -- line 282: the source queries the creation of the freshly
                -- built revision (not of `pprev`), which is never stored
                let ppc := s.repo.getCreation rev
                let (u2, s) := s.freshUuid
                let pvc : PipelineVersionCreation :=
                  { uuid := u2, pipeline_version_revision := rev
                    parent_pipeline_version_creation_uuid := ppc.map (·.uuid)
                    time := data.timestamp }
                let s := { s with repo :=
                  ((s.repo.addVersion pipeline_version).addRevision rev).addCreation pvc }
                let s := s.add_model (.pipelineVersionCreation ⟨pvc, some pprev, ppc⟩)
                .ok s pipeline_version (some rev)

/-- One iteration of the change-application loop of `update`
(`provinspector.py`, lines 322-612), applied to change data `c` with the
resolved parent revision `parent` and the debug-step time `t`.  The loop body
never rebinds `parent_pipeline_version_revision`, so `parent` is the same
record for every change of one debug step; the created revisions and changes
are not inserted into the object store (the source has no
`object_repository.add` in the loop).  A failed `next(...)` search raises
`StopIteration`, returned as an error together with the state at the raise. -/
def applyChange (s : ProvState) (parent : PipelineVersionRevision) (t : Rat)
    (c : PipelineChangeData) : ProvState × Option PyErr :=
  match c with
  | .operatorCreation _ operator_id operator_name operator_data =>
      let operator : Operator := ⟨operator_id, operator_name⟩
      let (u1, s) := s.freshUuid
      let parameters : List Parameter := operator_data.map (fun kv => ⟨kv.1, kv.2⟩)
      let operator_revision : OperatorRevision :=
        { uuid := u1, id_ := 0, operator := operator, parameters := parameters
          parent_operator_revision_uuid := none }
      -- lines 346-347: `operators = parent.operators; operators.append(...)`
      -- mutates the parent revision's list object in place
      let ops := s.heap.getOps parent.operatorsRef
      let s := { s with heap := s.heap.setOps parent.operatorsRef (ops ++ [operator_revision]) }
      let (u2, s) := s.freshUuid
      let pipeline_version_revision : PipelineVersionRevision :=
        { uuid := u2, id_ := parent.id_ + 1
          pipeline_version := parent.pipeline_version
          parent_pipeline_version_revision_uuid := some parent.uuid
          operatorsRef := parent.operatorsRef, connectionsRef := parent.connectionsRef }
      let parent_pipeline_change := (s.repo.listChanges parent).getLast?
      let (u3, s) := s.freshUuid
      let pipeline_change : OperatorCreationPipelineChange :=
        { uuid := u3, time := t, operator_revision := operator_revision
          pipeline_version_revision := pipeline_version_revision
          parent_pipeline_change_uuid := parent_pipeline_change.map (·.uuid) }
      let s := s.add_model (.operatorCreation
        ⟨pipeline_change, parent_pipeline_change, some parent⟩)
      (s, none)
  | .operatorModification _ operator_id operator_name changed_parameter changed_value =>
      let operator : Operator := ⟨operator_id, operator_name⟩
      -- line 394: `next(...)` with no default over the parent's operator list
      match (s.heap.getOps parent.operatorsRef).find? (fun o => o.operator == operator) with
      | none => (s, some .stopIteration)
      | some parent_operator_revision =>
          let parameters : List Parameter :=
            (parent_operator_revision.parameters.filter
              (fun p => p.name ≠ changed_parameter)).map (fun p => ⟨p.name, p.value⟩)
              ++ [⟨changed_parameter, .pfloat changed_value⟩]
          let (u1, s) := s.freshUuid
          let operator_revision : OperatorRevision :=
            { uuid := u1, id_ := parent_operator_revision.id_ + 1, operator := operator
              parameters := parameters
              parent_operator_revision_uuid := some parent_operator_revision.uuid }
          let ops := s.heap.getOps parent.operatorsRef
          let s := { s with heap := s.heap.setOps parent.operatorsRef (ops ++ [operator_revision]) }
          let (u2, s) := s.freshUuid
          let pipeline_version_revision : PipelineVersionRevision :=
            { uuid := u2, id_ := parent.id_ + 1
              pipeline_version := parent.pipeline_version
              parent_pipeline_version_revision_uuid := some parent.uuid
              operatorsRef := parent.operatorsRef, connectionsRef := parent.connectionsRef }
          let parent_pipeline_change := (s.repo.listChanges parent).getLast?
          let (u3, s) := s.freshUuid
          let pipeline_change : OperatorModificationPipelineChange :=
            { uuid := u3, time := t, operator_revision := operator_revision
              pipeline_version_revision := pipeline_version_revision
              parent_pipeline_change_uuid := parent_pipeline_change.map (·.uuid) }
          let s := s.add_model (.operatorModification
            ⟨pipeline_change, parent_pipeline_change, some parent_operator_revision,
              some parent⟩)
          (s, none)
  | .operatorDeletion _ operator_id operator_name =>
      let operator : Operator := ⟨operator_id, operator_name⟩
      -- line 469: `next(...)` with no default
      match (s.heap.getOps parent.operatorsRef).find? (fun o => o.operator == operator) with
      | none => (s, some .stopIteration)
      | some operator_revision =>
          -- line 477: `operators.remove(...)` drops the first equal element
          -- from the parent revision's list object, in place
          let ops := s.heap.getOps parent.operatorsRef
          let s := { s with heap := s.heap.setOps parent.operatorsRef (ops.erase operator_revision) }
          let (u1, s) := s.freshUuid
          let pipeline_version_revision : PipelineVersionRevision :=
            { uuid := u1, id_ := parent.id_ + 1
              pipeline_version := parent.pipeline_version
              parent_pipeline_version_revision_uuid := some parent.uuid
              operatorsRef := parent.operatorsRef, connectionsRef := parent.connectionsRef }
          let parent_pipeline_change := (s.repo.listChanges parent).getLast?
          let (u2, s) := s.freshUuid
          let pipeline_change : OperatorDeletionPipelineChange :=
            { uuid := u2, time := t, operator_revision := operator_revision
              pipeline_version_revision := pipeline_version_revision
              parent_pipeline_change_uuid := parent_pipeline_change.map (·.uuid) }
          let s := s.add_model (.operatorDeletion
            ⟨pipeline_change, parent_pipeline_change, some parent⟩)
          (s, none)
  | .connectionCreation _ connection_id from_operator_id to_operator_id _ _ =>
      let connection : Connection := ⟨connection_id, from_operator_id, to_operator_id⟩
      -- line 527: append to the parent revision's connection list, in place
      let cons := s.heap.getCons parent.connectionsRef
      let s := { s with heap := s.heap.setCons parent.connectionsRef (cons ++ [connection]) }
      let (u1, s) := s.freshUuid
      let pipeline_version_revision : PipelineVersionRevision :=
        { uuid := u1, id_ := parent.id_ + 1
          pipeline_version := parent.pipeline_version
          parent_pipeline_version_revision_uuid := some parent.uuid
          operatorsRef := parent.operatorsRef, connectionsRef := parent.connectionsRef }
      let parent_pipeline_change := (s.repo.listChanges parent).getLast?
      let (u2, s) := s.freshUuid
      let pipeline_change : ConnectionCreationPipelineChange :=
        { uuid := u2, time := t, connection := connection
          pipeline_version_revision := pipeline_version_revision
          parent_pipeline_change_uuid := parent_pipeline_change.map (·.uuid) }
      let s := s.add_model (.connectionCreation
        ⟨pipeline_change, parent_pipeline_change, some parent⟩)
      (s, none)
  | .connectionDeletion _ connection_id from_operator_id to_operator_id _ _ =>
      let connection : Connection := ⟨connection_id, from_operator_id, to_operator_id⟩
      -- line 577: the source APPENDS the reconstructed connection to the
      -- parent revision's connection list (additive deletion semantics)
      let cons := s.heap.getCons parent.connectionsRef
      let s := { s with heap := s.heap.setCons parent.connectionsRef (cons ++ [connection]) }
      let (u1, s) := s.freshUuid
      let pipeline_version_revision : PipelineVersionRevision :=
        { uuid := u1, id_ := parent.id_ + 1
          pipeline_version := parent.pipeline_version
          parent_pipeline_version_revision_uuid := some parent.uuid
          operatorsRef := parent.operatorsRef, connectionsRef := parent.connectionsRef }
      let parent_pipeline_change := (s.repo.listChanges parent).getLast?
      let (u2, s) := s.freshUuid
      let pipeline_change : ConnectionDeletionPipelineChange :=
        { uuid := u2, time := t, connection := connection
          pipeline_version_revision := pipeline_version_revision
          parent_pipeline_change_uuid := parent_pipeline_change.map (·.uuid) }
      let s := s.add_model (.connectionDeletion
        ⟨pipeline_change, parent_pipeline_change, some parent⟩)
      (s, none)

/-- The change-application loop of `update` over a list of changes; an
exception aborts the remainder of the loop with the state at the raise. -/
def applyChanges (s : ProvState) (parent : PipelineVersionRevision) (t : Rat) :
    List PipelineChangeData → ProvState × Option PyErr
  | [] => (s, none)
  | c :: rest =>
      match applyChange s parent t c with
      | (s, none) => applyChanges s parent t rest
      | (s, some e) => (s, some e)

/-- The execution-application phase of `update` (`provinspector.py`, lines
614-652): runs whenever `operator_metrics` is not Python `None` (an empty
list also runs it), searching the parent revision's operator list with an
undefaulted `next(...)`. -/
def applyExecution (s : ProvState) (parent : PipelineVersionRevision)
    (data : DebugStepData) : ProvState × Option PyErr :=
  match data.operator_metrics with
  | none => (s, none)
  | some ms =>
      let operator : Operator := ⟨data.operator_id, data.operator_name⟩
      match (s.heap.getOps parent.operatorsRef).find? (fun o => o.operator == operator) with
      | none => (s, some .stopIteration)  -- line 620: `next(...)` with no default
      | some operator_revision =>
          let metrics : List Metric := ms.map (fun m => ⟨m.name, m.value⟩)
          let (u1, s) := s.freshUuid
          let operator_run : OperatorRun :=
            { id_ := u1, created_at := data.timestamp, metrics := metrics }
          let (u2, s) := s.freshUuid
          let operator_execution : OperatorExecution :=
            { uuid := u2, operator_revision := operator_revision
              operator_run := operator_run
              operator_step_type := data.operator_step_type, time := data.timestamp }
          let s := s.add_model (.operationExecution ⟨operator_execution⟩)
          (s, none)

/-- `ProvInspector.update` (`provinspector.py`, lines 185-652): branch
resolution, cache refresh (lines 316-318; the branch id is cached before the
revision id, so an `AttributeError` from a failed cached fetch leaves the
revision-id cache untouched), the change loop, and execution application.
The second component is the exception the call raised, if any; the first is
the state including every mutation and model emission preceding the raise. -/
def update (s : ProvState) (data : DebugStepData) : ProvState × Option PyErr :=
  match resolveBranch s data with
  | .err s e => (s, some e)
  | .ok s pipeline_version parentOpt =>
      let s := { s with last_pipeline_version_id := pipeline_version.id_ }
      match parentOpt with
      | none => (s, some .attributeError)
      | some parent =>
          let s := { s with last_pipeline_version_revision_id := parent.id_ }
          let step1 :=
            match data.changes with
            | none => (s, (none : Option PyErr))
            | some cs => applyChanges s parent data.timestamp cs
          match step1 with
          | (s, some e) => (s, some e)
          | (s, none) => applyExecution s parent data

/-- The dictionary held by `InMemoryRepository.repo`
(`storage/repository.py`, line 10): a `defaultdict` from resource type to
the insertion-ordered list of records of that type, modelled as an
association list keyed by a type tag. -/
def RepoDict (R : Type) : Type := List (String × List R)

/-- `repo.get(resource_type, [])`: the stored list for a type, or `[]` when
the type has no entry. -/
def dictGet {R : Type} : RepoDict R → String → List R
  | [], _ => []
  | kv :: rest, t => if kv.1 = t then kv.2 else dictGet rest t

/-- `repo[type(resource)].append(resource)`: the `defaultdict` creates the
entry on first access, then the record is appended in place. -/
def dictAppend {R : Type} : RepoDict R → String → R → RepoDict R
  | [], t, r => [(t, [r])]
  | kv :: rest, t, r =>
      if kv.1 = t then (t, kv.2 ++ [r]) :: rest else kv :: dictAppend rest t r

/-- The `InMemoryRepository` CLASS attribute `repo`: the line
`repo = defaultdict(list)` in the class body (it carries no type annotation,
so the `dataclass` decorator does not make it a field) creates one dictionary
object at class-definition time, shared by every instance that does not
shadow it. -/
structure InMemoryRepositoryClass (R : Type) where
  repo : RepoDict R

/-- One `InMemoryRepository` instance.  Its generated `__init__` sets no
instance attribute, so `shadow` — the instance `__dict__` entry that would
shadow the class attribute on lookup — is `none` for every instance this
class's code constructs. -/
structure InMemoryRepositoryInstance (R : Type) where
  shadow : Option (RepoDict R)

/-- The `InMemoryRepository()` constructor. -/
def mkInMemoryRepository {R : Type} : InMemoryRepositoryInstance R := ⟨none⟩

/-- Python attribute lookup for `self.repo`: the instance `__dict__` first,
the class attribute otherwise. -/
def instanceStore {R : Type} (c : InMemoryRepositoryClass R)
    (i : InMemoryRepositoryInstance R) : RepoDict R :=
  i.shadow.getD c.repo

/-- The conjunction `all(getattr(r, key) == val for key, val in
filters.items())` over keyword filters, with `getattr` supplied as the
record type's attribute table. -/
def matchesFilters {R : Type} (getattr : R → String → PyVal)
    (filters : List (String × PyVal)) (r : R) : Bool :=
  filters.all (fun kv => getattr r kv.1 == kv.2)

/-- `InMemoryRepository.add`: mutates the dictionary object `self.repo`
resolves to — the shared class dictionary unless the instance shadows it. -/
def reposAdd {R : Type} (c : InMemoryRepositoryClass R)
    (i : InMemoryRepositoryInstance R) (t : String) (r : R) :
    InMemoryRepositoryClass R × InMemoryRepositoryInstance R :=
  match i.shadow with
  | some d => (c, ⟨some (dictAppend d t r)⟩)
  | none => (⟨dictAppend c.repo t r⟩, i)

/-- `InMemoryRepository.get`: `next` over the generator of matching records,
with default `None` — the first stored record satisfying every filter. -/
def reposGet {R : Type} (c : InMemoryRepositoryClass R)
    (i : InMemoryRepositoryInstance R) (t : String) (φ : R → Bool) : Option R :=
  (dictGet (instanceStore c i) t).find? φ

/-- `InMemoryRepository.list_all`: every stored record satisfying the
filters, in insertion order. -/
def repos_list_all {R : Type} (c : InMemoryRepositoryClass R)
    (i : InMemoryRepositoryInstance R) (t : String) (φ : R → Bool) : List R :=
  (dictGet (instanceStore c i) t).filter φ

/-- `InMemoryRepository.clear`: `self.repo.clear()` empties the dictionary
object in place. -/
def reposClear {R : Type} (c : InMemoryRepositoryClass R)
    (i : InMemoryRepositoryInstance R) :
    InMemoryRepositoryClass R × InMemoryRepositoryInstance R :=
  match i.shadow with
  | some _ => (c, ⟨some []⟩)
  | none => (⟨[]⟩, i)

/-- The revision constructed by a change model, if the model stems from the
change-application loop. -/
def Model.changeRevision? : Model → Option PipelineVersionRevision
  | .operatorCreation m => some m.pipeline_change.pipeline_version_revision
  | .operatorModification m => some m.pipeline_change.pipeline_version_revision
  | .operatorDeletion m => some m.pipeline_change.pipeline_version_revision
  | .connectionCreation m => some m.pipeline_change.pipeline_version_revision
  | .connectionDeletion m => some m.pipeline_change.pipeline_version_revision
  | _ => none

/-- The uuid of the parent revision `update` resolves and builds upon, read
off the branch-resolution outcome. -/
def resolvedParentUuid (s : ProvState) (data : DebugStepData) : Option Nat :=
  match resolveBranch s data with
  | .ok _ _ (some parent) => some parent.uuid
  | _ => none

/-- A placeholder revision for total list projections in concrete runs. -/
def dummyRev : PipelineVersionRevision :=
  { uuid := 999, id_ := 0, pipeline_version := ⟨0, none⟩
    parent_pipeline_version_revision_uuid := none
    operatorsRef := 0, connectionsRef := 0 }

/-- Scenario S1 of the specification: a first debug step on branch 0 with no
parent branch, no changes, and an EMPTY (non-null) metrics list. -/
def stepS1 : DebugStepData :=
  { id := "s1", timestamp := 5, branch_id := 0, branch_local_step_id := 0
    parent_branch_id := none, operator_id := 1, operator_name := "op"
    operator_step_type := .on_op_executed, operator_metrics := some []
    changes := none }

/-- The same first debug step with null metrics. -/
def stepNoMetrics : DebugStepData := { stepS1 with operator_metrics := none }

/-- One debug step on branch 0 carrying two changes. -/
def stepTwoChanges : DebugStepData :=
  { stepNoMetrics with
    changes := some [.operatorCreation "c1" 1 "a" [], .connectionCreation "c2" 9 1 2 0 0] }

/-- Initialization data declaring a single operator 7 with one parameter. -/
def initOneOp7 : List PipelineChangeData :=
  [.operatorCreation "i" 7 "op" [("lr", .pfloat 10)]]

/-- State after initializing with operator 7. -/
def stateInit7 : ProvState := (initializeGraph initialProvState initOneOp7).1

/-- The genesis revision stored by that initialization. -/
def genesisRev7 : PipelineVersionRevision := stateInit7.repo.revisions.headD dummyRev

/-- A debug step modifying an operator id that the pipeline does not hold. -/
def stepModify99 : DebugStepData :=
  { stepNoMetrics with changes := some [.operatorModification "m" 99 "x" "lr" 2] }

/-- A debug step creating a second operator. -/
def stepCreateOp8 : DebugStepData :=
  { stepNoMetrics with changes := some [.operatorCreation "c" 8 "b" []] }

/-- State after a first `update` ran before any `initialize` (the translator
creates branch 0 itself and leaves `initialized` false). -/
def stateAfterUpdate : ProvState := (update initialProvState stepNoMetrics).1

/-- State after `initialize` was then called on top of that update: the store
now holds a second branch-0 pipeline version and a second branch-0 revision. -/
def stateInterleaved : ProvState := (initializeGraph stateAfterUpdate []).1

/-- State after a plain empty initialization. -/
def stateInitEmpty : ProvState := (initializeGraph initialProvState []).1

/-- The store invariant the translator maintains while `initialize` is only
invoked on an empty store: stored revisions mirror the stored versions
one-to-one in insertion order, every stored revision is a genesis revision
(sequence id 0), branch ids are unique, and the cached last-used revision id
is 0. -/
def ReposInv (s : ProvState) : Prop :=
  s.repo.revisions.map (fun r => r.pipeline_version) = s.repo.versions ∧
  (∀ r ∈ s.repo.revisions, r.id_ = 0) ∧
  s.repo.versions.Pairwise (fun a b => a.id_ ≠ b.id_) ∧
  s.last_pipeline_version_revision_id = 0

/-- States reachable under the intended calling discipline: `initialize` is
only invoked while the object store holds no `PipelineVersion` (in
particular, never after an `update` already created branch 0), while
`update` and `clear` may be interleaved freely. -/
inductive DisciplinedReachable : ProvState → Prop where
  | init : DisciplinedReachable initialProvState
  | doInitialize (s : ProvState) (data : List PipelineChangeData) :
      DisciplinedReachable s → s.repo.versions = [] →
      DisciplinedReachable (initializeGraph s data).1
  | doUpdate (s : ProvState) (data : DebugStepData) :
      DisciplinedReachable s → DisciplinedReachable (update s data).1
  | doClear (s : ProvState) :
      DisciplinedReachable s → DisciplinedReachable s.clear

/-- A concrete operator execution used to exercise the execution builder:
operator 7 at revision 0 with one parameter, one run, one metric. -/
def exampleExecution : OperatorExecution :=
  { uuid := 40
    operator_revision :=
      { uuid := 41, id_ := 0, operator := ⟨7, "op"⟩
        parameters := [⟨"lr", .pfloat 10⟩]
        parent_operator_revision_uuid := none }
    operator_run := { id_ := 42, created_at := 5, metrics := [⟨"loss", 7⟩] }
    operator_step_type := .on_op_executed
    time := 5 }

theorem dictGet_dictAppend_same {R : Type} (d : RepoDict R) (t : String) (r : R) :
    dictGet (dictAppend d t r) t = dictGet d t ++ [r] := by
  induction d with
  | nil => simp [dictAppend, dictGet]
  | cons kv rest ih =>
      by_cases h : kv.1 = t
      · simp [dictAppend, dictGet, h]
      · simp [dictAppend, dictGet, h, ih]

theorem find?_first {α : Type} (p : α → Bool) :
    ∀ (l : List α) (a : α), l.find? p = some a ↔
      ∃ l1 l2, l = l1 ++ a :: l2 ∧ p a = true ∧ ∀ b ∈ l1, p b = false := by
  intro l
  induction l with
  | nil => simp
  | cons x xs ih =>
      intro a
      by_cases hx : p x = true
      · rw [List.find?_cons_of_pos _ hx]
        constructor
        · rintro h
          injection h with h
          exact ⟨[], xs, by simp [h], by rw [← h]; exact hx, by simp⟩
        · rintro ⟨l1, l2, heq, hpa, hl1⟩
          cases l1 with
          | nil =>
              injection heq with h1 _
              rw [h1]
          | cons y ys =>
              injection heq with h1 _
              exact absurd hx (by rw [h1]; simp [hl1 y (by simp)])
      · rw [List.find?_cons_of_neg _ hx]
        rw [ih a]
        constructor
        · rintro ⟨l1, l2, rfl, hpa, hl1⟩
          refine ⟨x :: l1, l2, rfl, hpa, ?_⟩
          intro b hb
          rcases List.mem_cons.mp hb with hb | hb
          · rw [hb]
            exact Bool.eq_false_iff.mpr hx
          · exact hl1 b hb
        · rintro ⟨l1, l2, heq, hpa, hl1⟩
          cases l1 with
          | nil =>
              injection heq with h1 _
              exact absurd (by rw [h1]; exact hpa) hx
          | cons y ys =>
              injection heq with h1 h2
              exact ⟨ys, l2, h2, hpa, fun b hb => hl1 b (by simp [hb])⟩

/-- C10: any two `InMemoryRepository` instances share one underlying store —
`repo` is a class attribute, so an `add` through one instance is observed by
`get`/`list_all` through any other, and `clear` through any instance empties
the store observed by all — and within one store `get(type, filters)` returns
the first record in insertion order whose named attributes equal the given
values, or `None` when no record matches. -/
theorem C10_shared_repository_and_first_match_get
    {R : Type} (c : InMemoryRepositoryClass R)
    (i j : InMemoryRepositoryInstance R) (t u : String) (r : R)
    (getattr : R → String → PyVal) (filters : List (String × PyVal))
    (hi : i.shadow = none) (hj : j.shadow = none) :
    (dictGet (instanceStore (reposAdd c i t r).1 j) t =
      dictGet (instanceStore c j) t ++ [r]) ∧
    (r ∈ repos_list_all (reposAdd c i t r).1 j t (fun _ => true)) ∧
    (dictGet (instanceStore (reposClear c i).1 j) u = []) ∧
    (∀ a, reposGet c j t (matchesFilters getattr filters) = some a ↔
      ∃ l1 l2, dictGet (instanceStore c j) t = l1 ++ a :: l2 ∧
        matchesFilters getattr filters a = true ∧
        ∀ b ∈ l1, matchesFilters getattr filters b = false) ∧
    (reposGet c j t (matchesFilters getattr filters) = none ↔
      ∀ a ∈ dictGet (instanceStore c j) t, matchesFilters getattr filters a = false) := by
  refine ⟨?_, ?_, ?_, ?_, ?_⟩
  · simp [reposAdd, hi, hj, instanceStore, dictGet_dictAppend_same]
  · simp [repos_list_all, reposAdd, hi, hj, instanceStore, dictGet_dictAppend_same]
  · simp [reposClear, hi, hj, instanceStore, dictGet]
  · intro a
    exact find?_first _ _ a
  · simp [reposGet, List.find?_eq_none]

theorem C10_shared_repository_witness :
    (dictGet (instanceStore
        (reposAdd (⟨[]⟩ : InMemoryRepositoryClass Int) mkInMemoryRepository "PipelineVersion" 1).1
        mkInMemoryRepository) "PipelineVersion" = [1]) ∧
    (dictGet (instanceStore
        (reposClear (⟨[("PipelineVersion", [1])]⟩ : InMemoryRepositoryClass Int)
          mkInMemoryRepository).1 mkInMemoryRepository) "PipelineVersion" = []) := by
  refine ⟨?_, ?_⟩
  · have h := C10_shared_repository_and_first_match_get
      (⟨[]⟩ : InMemoryRepositoryClass Int) mkInMemoryRepository mkInMemoryRepository
      "PipelineVersion" "PipelineVersion" 1 (fun r _ => .pint r) [] rfl rfl
    exact h.1
  · have h := C10_shared_repository_and_first_match_get
      (⟨[("PipelineVersion", [1])]⟩ : InMemoryRepositoryClass Int) mkInMemoryRepository
      mkInMemoryRepository "PipelineVersion" "PipelineVersion" 1 (fun r _ => .pint r) [] rfl rfl
    exact h.2.2.1

/-- C7: every edge emitted by `add_relation` carries the deterministic
identifier `relation:<source identifier>:<target identifier>` computed from
the endpoints' PROV identifiers, except specialization and membership edges,
which carry no identifier; and the edge asserts the PROV "Revision" type
exactly when the relation kind is the revision specialization of derivation. -/
theorem C7_add_relation_deterministic_identifier
    (d : ProvDocument) (kind : RelationKind) (source target : String)
    (time : Option Rat) (role : Option String) :
    ((add_relation d kind source target time role).relations =
      d.relations ++ [mkRelation kind source target time role]) ∧
    (kind ≠ .specialization ∧ kind ≠ .membership →
      (mkRelation kind source target time role).identifier =
        some ("relation:" ++ source ++ ":" ++ target)) ∧
    (kind = .specialization ∨ kind = .membership →
      (mkRelation kind source target time role).identifier = none) ∧
    ((mkRelation kind source target time role).assertsRevision = true ↔
      kind = .revision) := by
  refine ⟨rfl, ?_, ?_, ?_⟩ <;> cases kind <;> simp [mkRelation]

theorem C7_add_relation_witness :
    (mkRelation .generation "a" "b" none none).identifier = some "relation:a:b" ∧
    (mkRelation .membership "a" "b" none none).identifier = none ∧
    (mkRelation .revision "a" "b" none none).assertsRevision = true :=
  ⟨(C7_add_relation_deterministic_identifier ProvDocument.empty .generation "a" "b"
      none none).2.1 ⟨by decide, by decide⟩,
   (C7_add_relation_deterministic_identifier ProvDocument.empty .membership "a" "b"
      none none).2.2.1 (Or.inr rfl),
   (C7_add_relation_deterministic_identifier ProvDocument.empty .revision "a" "b"
      none none).2.2.2.mpr rfl⟩

/-- C6: calling `initialize` when the translator is already initialized
emits the duplicate-initialization warning and changes no state at all — the
object store, the `initialized` flag and the cached last-used ids are those
of the state before the call. -/
theorem C6_duplicate_initialize_warns_and_preserves_state
    (s : ProvState) (data : List PipelineChangeData) (h : s.initialized = true) :
    initializeGraph s data = (s, true) := by
  simp [initializeGraph, h]

theorem C6_duplicate_initialize_witness :
    stateInitEmpty.initialized = true ∧
    initializeGraph stateInitEmpty [] = (stateInitEmpty, true) :=
  ⟨rfl, C6_duplicate_initialize_warns_and_preserves_state stateInitEmpty [] rfl⟩

theorem Heap.getOps_setOps_same (h : Heap) (r : Nat) (l : List OperatorRevision)
    (hr : r < h.opLists.length) : (h.setOps r l).getOps r = l := by
  simp [Heap.getOps, Heap.setOps, List.getD, List.getElem?_set_self', hr]

theorem Heap.getCons_setCons_same (h : Heap) (r : Nat) (l : List Connection)
    (hr : r < h.conLists.length) : (h.setCons r l).getCons r = l := by
  simp [Heap.getCons, Heap.setCons, List.getD, List.getElem?_set_self', hr]

theorem foldl_append_closed {α : Type} (g : ProvDocument → α → ProvDocument)
    (E : α → List String) (R : α → List ProvRelationRec)
    (hg : ∀ d x, g d x = ⟨d.elements ++ E x, d.relations ++ R x⟩) :
    ∀ (l : List α) (d : ProvDocument),
      l.foldl g d = ⟨d.elements ++ (l.map E).flatten, d.relations ++ (l.map R).flatten⟩ := by
  intro l
  induction l with
  | nil => intro d; simp
  | cons x xs ih =>
      intro d
      rw [List.foldl_cons, hg, ih]
      simp

/-- C4: when `update` applies an `OperatorDeletion` change, the new revision's
operator set is the parent revision's set minus the deleted
`OperatorRevision` (the first stored revision of the event's operator); when
it applies a `ConnectionDeletion`, the new revision's connection set is the
parent's set PLUS the `Connection` reconstructed from the event's ids
(appended, not removed); when it applies an `OperatorModification`, the new
operator set is the parent's set plus the new `OperatorRevision`, the old one
not being removed.  In each case the new revision shares the parent's list
objects, so its sets are read at the parent's heap references. -/
theorem C4_deletion_and_modification_set_semantics :
    (∀ (s : ProvState) (parent : PipelineVersionRevision) (t : Rat)
        (id : String) (opid : Int) (opname : String) (orv : OperatorRevision),
      (s.heap.getOps parent.operatorsRef).find?
          (fun o => o.operator == (⟨opid, opname⟩ : Operator)) = some orv →
      parent.operatorsRef < s.heap.opLists.length →
      (applyChange s parent t (.operatorDeletion id opid opname)).1.heap.getOps
          parent.operatorsRef = (s.heap.getOps parent.operatorsRef).erase orv ∧
      ((applyChange s parent t (.operatorDeletion id opid opname)).1.models.getLast?.bind
          Model.changeRevision?).map (fun rev => (rev.operatorsRef, rev.connectionsRef)) =
        some (parent.operatorsRef, parent.connectionsRef) ∧
      (applyChange s parent t (.operatorDeletion id opid opname)).2 = none) ∧
    (∀ (s : ProvState) (parent : PipelineVersionRevision) (t : Rat)
        (id : String) (cid fo tgt fsk tsk : Int),
      parent.connectionsRef < s.heap.conLists.length →
      (applyChange s parent t (.connectionDeletion id cid fo tgt fsk tsk)).1.heap.getCons
          parent.connectionsRef =
        s.heap.getCons parent.connectionsRef ++ [⟨cid, fo, tgt⟩] ∧
      ((applyChange s parent t (.connectionDeletion id cid fo tgt fsk tsk)).1.models.getLast?.bind
          Model.changeRevision?).map (fun rev => (rev.operatorsRef, rev.connectionsRef)) =
        some (parent.operatorsRef, parent.connectionsRef) ∧
      (applyChange s parent t (.connectionDeletion id cid fo tgt fsk tsk)).2 = none) ∧
    (∀ (s : ProvState) (parent : PipelineVersionRevision) (t : Rat)
        (id : String) (opid : Int) (opname cp : String) (cv : Rat) (orv : OperatorRevision),
      (s.heap.getOps parent.operatorsRef).find?
          (fun o => o.operator == (⟨opid, opname⟩ : Operator)) = some orv →
      parent.operatorsRef < s.heap.opLists.length →
      (applyChange s parent t (.operatorModification id opid opname cp cv)).1.heap.getOps
          parent.operatorsRef =
        s.heap.getOps parent.operatorsRef ++
          [{ uuid := s.next_uuid, id_ := orv.id_ + 1, operator := ⟨opid, opname⟩
             parameters := (orv.parameters.filter (fun p => p.name ≠ cp)).map
                 (fun p => ⟨p.name, p.value⟩) ++ [⟨cp, .pfloat cv⟩]
             parent_operator_revision_uuid := some orv.uuid }] ∧
      ((applyChange s parent t (.operatorModification id opid opname cp cv)).1.models.getLast?.bind
          Model.changeRevision?).map (fun rev => (rev.operatorsRef, rev.connectionsRef)) =
        some (parent.operatorsRef, parent.connectionsRef) ∧
      (applyChange s parent t (.operatorModification id opid opname cp cv)).2 = none) := by
  refine ⟨?_, ?_, ?_⟩
  · intro s parent t id opid opname orv hfind hr
    refine ⟨?_, ?_, ?_⟩ <;>
      simp [applyChange, hfind, ProvState.add_model, ProvState.freshUuid,
        Heap.getOps_setOps_same _ _ _ hr, List.getLast?_concat, Model.changeRevision?]
  · intro s parent t id cid fo tgt fsk tsk hr
    refine ⟨?_, ?_, ?_⟩ <;>
      simp [applyChange, ProvState.add_model, ProvState.freshUuid,
        Heap.getCons_setCons_same _ _ _ hr, List.getLast?_concat, Model.changeRevision?]
  · intro s parent t id opid opname cp cv orv hfind hr
    refine ⟨?_, ?_, ?_⟩ <;>
      simp [applyChange, hfind, ProvState.add_model, ProvState.freshUuid,
        Heap.getOps_setOps_same _ _ _ hr, List.getLast?_concat, Model.changeRevision?]

theorem C4_set_semantics_witness :
    (applyChange stateInit7 genesisRev7 5
        (.operatorDeletion "d" 7 "op")).1.heap.getOps genesisRev7.operatorsRef = [] ∧
    (applyChange stateInit7 genesisRev7 5
        (.connectionDeletion "cd" 9 1 2 0 0)).1.heap.getCons genesisRev7.connectionsRef =
      [⟨9, 1, 2⟩] ∧
    (applyChange stateInit7 genesisRev7 5
        (.operatorModification "m" 7 "op" "lr" 2)).1.heap.getOps genesisRev7.operatorsRef =
      stateInit7.heap.getOps genesisRev7.operatorsRef ++
        [{ uuid := stateInit7.next_uuid, id_ := 1, operator := ⟨7, "op"⟩
           parameters := [⟨"lr", .pfloat 2⟩]
           parent_operator_revision_uuid := some 1 }] := by
  refine ⟨?_, ?_, ?_⟩
  · have h := (C4_deletion_and_modification_set_semantics.1 stateInit7 genesisRev7 5
      "d" 7 "op" ⟨1, 0, ⟨7, "op"⟩, [⟨"lr", .pfloat 10⟩], none⟩ (by decide) (by decide)).1
    rw [h]
    decide
  · have h := (C4_deletion_and_modification_set_semantics.2.1 stateInit7 genesisRev7 5
      "cd" 9 1 2 0 0 (by decide)).1
    rw [h]
    decide
  · have h := (C4_deletion_and_modification_set_semantics.2.2 stateInit7 genesisRev7 5
      "m" 7 "op" "lr" 2 ⟨1, 0, ⟨7, "op"⟩, [⟨"lr", .pfloat 10⟩], none⟩
      (by decide) (by decide)).1
    rw [h]
    decide

/-- C3 fails on the code: the records are not immutable.  Applying an
`OperatorCreation` change to the pipeline initialized with operator 7 (whose
stored genesis revision's operator list object holds exactly the revision
with uuid 1) leaves that same previously stored list object holding a second
element afterwards — the parent revision was mutated in place. -/
theorem C3_parent_revision_mutated_counterexample :
    stateInit7.repo.revisions.map (fun r => r.operatorsRef) = [genesisRev7.operatorsRef] ∧
    (stateInit7.heap.getOps genesisRev7.operatorsRef).map (fun o => o.uuid) = [1] ∧
    ((update stateInit7 stepCreateOp8).1.heap.getOps genesisRev7.operatorsRef).map
        (fun o => o.uuid) = [1, 3] ∧
    (update stateInit7 stepCreateOp8).2 = none :=
  ⟨rfl, rfl, rfl, rfl⟩

/-- C3 amended: creating a new revision does NOT copy the parent revision's
lists — the new revision aliases the very same list objects, and applying a
change mutates them in place (here: `OperatorCreation` appends the new
`OperatorRevision` to the parent's own operator list).  The sub-model
builders themselves only read the records they are given. -/
theorem C3_amended_in_place_aliasing (s : ProvState) (parent : PipelineVersionRevision)
    (t : Rat) (id : String) (opid : Int) (opname : String)
    (odata : List (String × PyVal))
    (hr : parent.operatorsRef < s.heap.opLists.length) :
    (applyChange s parent t (.operatorCreation id opid opname odata)).1.heap.getOps
        parent.operatorsRef =
      s.heap.getOps parent.operatorsRef ++
        [{ uuid := s.next_uuid, id_ := 0, operator := ⟨opid, opname⟩
           parameters := odata.map (fun kv => ⟨kv.1, kv.2⟩)
           parent_operator_revision_uuid := none }] ∧
    ((applyChange s parent t (.operatorCreation id opid opname odata)).1.models.getLast?.bind
        Model.changeRevision?).map (fun rev => (rev.operatorsRef, rev.connectionsRef)) =
      some (parent.operatorsRef, parent.connectionsRef) := by
  refine ⟨?_, ?_⟩ <;>
    simp [applyChange, ProvState.add_model, ProvState.freshUuid,
      Heap.getOps_setOps_same _ _ _ hr, List.getLast?_concat, Model.changeRevision?]

theorem C3_amended_witness :
    (applyChange stateInit7 genesisRev7 5 (.operatorCreation "c" 8 "b" [])).1.heap.getOps
        genesisRev7.operatorsRef =
      stateInit7.heap.getOps genesisRev7.operatorsRef ++
        [{ uuid := stateInit7.next_uuid, id_ := 0, operator := ⟨8, "b"⟩
           parameters := [], parent_operator_revision_uuid := none }] := by
  have h := (C3_amended_in_place_aliasing stateInit7 genesisRev7 5 "c" 8 "b" [] (by decide)).1
  rw [h]
  simp

/-- C5 fails on the code: an `OperatorModification` whose operator has no
`OperatorRevision` in the parent revision's operator set does not yield
`None` into the builder — the undefaulted `next(...)` raises `StopIteration`
and the update terminates, even though the lookup itself found no match. -/
theorem C5_missing_operator_raises_counterexample :
    (stateInit7.heap.getOps genesisRev7.operatorsRef).find?
        (fun o => o.operator == (⟨99, "x"⟩ : Operator)) = none ∧
    (update stateInit7 stepModify99).2 = some .stopIteration :=
  ⟨rfl, rfl⟩

/-- C5 amended: a failed search for the event's operator in the parent
revision's operator set — during `OperatorModification`, `OperatorDeletion`
or execution application — raises `StopIteration` and terminates the update
with the state unchanged, exactly like a missing syntactically required
parent; only the repository lookups that can legitimately find no match
(parent creation, parent change) yield `None` into the builder, which then
silently omits the dependent communication, revision and usage edges: with
all parents `None` the modification builder still succeeds and emits only
generation, specialization and membership edges. -/
theorem C5_amended_error_propagation :
    (∀ (s : ProvState) (parent : PipelineVersionRevision) (t : Rat)
        (id : String) (opid : Int) (opname cp : String) (cv : Rat),
      (s.heap.getOps parent.operatorsRef).find?
          (fun o => o.operator == (⟨opid, opname⟩ : Operator)) = none →
      applyChange s parent t (.operatorModification id opid opname cp cv) =
        (s, some .stopIteration)) ∧
    (∀ (s : ProvState) (parent : PipelineVersionRevision) (t : Rat)
        (id : String) (opid : Int) (opname : String),
      (s.heap.getOps parent.operatorsRef).find?
          (fun o => o.operator == (⟨opid, opname⟩ : Operator)) = none →
      applyChange s parent t (.operatorDeletion id opid opname) =
        (s, some .stopIteration)) ∧
    (∀ (s : ProvState) (parent : PipelineVersionRevision) (data : DebugStepData)
        (ms : List MetricData),
      data.operator_metrics = some ms →
      (s.heap.getOps parent.operatorsRef).find?
          (fun o => o.operator == (⟨data.operator_id, data.operator_name⟩ : Operator)) = none →
      applyExecution s parent data = (s, some .stopIteration)) ∧
    (∀ (pc : OperatorModificationPipelineChange) (h : Heap),
      ∀ rel ∈ (OperatorModificationModel.build ⟨pc, none, none, none⟩ h).relations,
        rel.kind = .generation ∨ rel.kind = .specialization ∨ rel.kind = .membership) := by
  refine ⟨?_, ?_, ?_, ?_⟩
  · intro s parent t id opid opname cp cv hfind
    simp [applyChange, hfind]
  · intro s parent t id opid opname hfind
    simp [applyChange, hfind]
  · intro s parent data ms hms hfind
    simp [applyExecution, hms, hfind]
  · intro pc h rel hrel
    simp only [OperatorModificationModel.build] at hrel
    rw [foldl_append_closed
        (fun (d : ProvDocument) (p : Parameter) =>
          add_relation (add_element d p.prov_identifier) .membership
            pc.operator_revision.prov_identifier p.prov_identifier none none)
        (fun p => [p.prov_identifier])
        (fun p => [mkRelation .membership pc.operator_revision.prov_identifier
          p.prov_identifier none none]) (fun d x => rfl)] at hrel
    rw [foldl_append_closed
        (fun (d : ProvDocument) (o : OperatorRevision) =>
          add_relation (add_element d o.prov_identifier) .membership
            pc.pipeline_version_revision.prov_identifier o.prov_identifier none none)
        (fun o => [o.prov_identifier])
        (fun o => [mkRelation .membership
          pc.pipeline_version_revision.prov_identifier o.prov_identifier none none])
        (fun d x => rfl)] at hrel
    rw [foldl_append_closed
        (fun (d : ProvDocument) (c : Connection) =>
          add_relation (add_element d c.prov_identifier) .membership
            pc.pipeline_version_revision.prov_identifier c.prov_identifier none none)
        (fun c => [c.prov_identifier])
        (fun c => [mkRelation .membership
          pc.pipeline_version_revision.prov_identifier c.prov_identifier none none])
        (fun d x => rfl)] at hrel
    simp only [add_element, add_relation, List.mem_append, List.mem_flatten,
      List.mem_map, List.mem_cons, List.not_mem_nil, List.mem_singleton] at hrel
    casesm* _ ∨ _, Exists _, _ ∧ _ <;> subst_vars <;>
      simp_all [mkRelation, ProvDocument.empty]

theorem C5_amended_error_propagation_witness :
    applyChange stateInit7 genesisRev7 5 (.operatorModification "m" 99 "x" "lr" 2) =
      (stateInit7, some .stopIteration) :=
  C5_amended_error_propagation.1 stateInit7 genesisRev7 5 "m" 99 "x" "lr" 2 rfl

theorem applyChange_models_bound (s : ProvState) (parent : PipelineVersionRevision)
    (t : Rat) (c : PipelineChangeData) :
    ∀ rev ∈ ((applyChange s parent t c).1.models.filterMap Model.changeRevision?),
      rev ∈ s.models.filterMap Model.changeRevision? ∨
        (rev.id_ = parent.id_ + 1 ∧ rev.pipeline_version = parent.pipeline_version) := by
  intro rev hrev
  cases c with
  | operatorCreation id opid opname odata =>
      simp [applyChange, ProvState.add_model, ProvState.freshUuid,
        List.filterMap_append, Model.changeRevision?] at hrev
      rcases hrev with hrev | hrev
      · exact .inl (List.mem_filterMap.mpr hrev)
      · subst hrev; exact .inr ⟨rfl, rfl⟩
  | operatorModification id opid opname cp cv =>
      rcases hf : (s.heap.getOps parent.operatorsRef).find?
          (fun o => o.operator == (⟨opid, opname⟩ : Operator)) with _ | orv
      · simp [applyChange, hf] at hrev
        exact .inl (List.mem_filterMap.mpr hrev)
      · simp [applyChange, hf, ProvState.add_model, ProvState.freshUuid,
          List.filterMap_append, Model.changeRevision?] at hrev
        rcases hrev with hrev | hrev
        · exact .inl (List.mem_filterMap.mpr hrev)
        · subst hrev; exact .inr ⟨rfl, rfl⟩
  | operatorDeletion id opid opname =>
      rcases hf : (s.heap.getOps parent.operatorsRef).find?
          (fun o => o.operator == (⟨opid, opname⟩ : Operator)) with _ | orv
      · simp [applyChange, hf] at hrev
        exact .inl (List.mem_filterMap.mpr hrev)
      · simp [applyChange, hf, ProvState.add_model, ProvState.freshUuid,
          List.filterMap_append, Model.changeRevision?] at hrev
        rcases hrev with hrev | hrev
        · exact .inl (List.mem_filterMap.mpr hrev)
        · subst hrev; exact .inr ⟨rfl, rfl⟩
  | connectionCreation id cid fo tgt fsk tsk =>
      simp [applyChange, ProvState.add_model, ProvState.freshUuid,
        List.filterMap_append, Model.changeRevision?] at hrev
      rcases hrev with hrev | hrev
      · exact .inl (List.mem_filterMap.mpr hrev)
      · subst hrev; exact .inr ⟨rfl, rfl⟩
  | connectionDeletion id cid fo tgt fsk tsk =>
      simp [applyChange, ProvState.add_model, ProvState.freshUuid,
        List.filterMap_append, Model.changeRevision?] at hrev
      rcases hrev with hrev | hrev
      · exact .inl (List.mem_filterMap.mpr hrev)
      · subst hrev; exact .inr ⟨rfl, rfl⟩

/-- C2 amended: every `PipelineVersionRevision` the change-application loop
creates satisfies `rev.id_ = parent.id_ + 1` and
`rev.pipeline_version = parent.pipeline_version` for the RESOLVED parent
revision of the debug step — but the loop never advances that parent (and
never stores the new revisions), so every change of one debug step yields the
same sequence id `parent.id_ + 1`; the ids are not strictly monotonically
increasing by one per change.  The branch-genesis revision created by branch
resolution is outside the loop and carries id 0. -/
theorem C2_amended_change_revision_ids (s : ProvState)
    (parent : PipelineVersionRevision) (t : Rat) (cs : List PipelineChangeData) :
    ∀ rev ∈ ((applyChanges s parent t cs).1.models.filterMap Model.changeRevision?),
      rev ∈ s.models.filterMap Model.changeRevision? ∨
        (rev.id_ = parent.id_ + 1 ∧ rev.pipeline_version = parent.pipeline_version) := by
  induction cs generalizing s with
  | nil =>
      intro rev hrev
      exact .inl (by simpa [applyChanges] using hrev)
  | cons c rest ih =>
      intro rev hrev
      rcases hac : applyChange s parent t c with ⟨s2, e⟩
      have hstep := applyChange_models_bound s parent t c
      rw [hac] at hstep
      cases e with
      | none =>
          rw [show applyChanges s parent t (c :: rest) = applyChanges s2 parent t rest from
            by simp [applyChanges, hac]] at hrev
          rcases ih s2 rev hrev with h | h
          · exact hstep rev h
          · exact .inr h
      | some e2 =>
          rw [show applyChanges s parent t (c :: rest) = (s2, some e2) from
            by simp [applyChanges, hac]] at hrev
          exact hstep rev hrev

theorem C2_amended_change_revision_ids_witness :
    (⟨2, 1, ⟨0, none⟩, some 999, 0, 0⟩ : PipelineVersionRevision).id_ = dummyRev.id_ + 1 ∧
    (⟨2, 1, ⟨0, none⟩, some 999, 0, 0⟩ : PipelineVersionRevision).pipeline_version =
      dummyRev.pipeline_version :=
  (C2_amended_change_revision_ids initialProvState dummyRev 5
      [.operatorCreation "c1" 1 "a" []] ⟨2, 1, ⟨0, none⟩, some 999, 0, 0⟩
      (by decide)).resolve_left (by decide)

/-- C2 fails on the code: one debug step carrying two changes creates two
distinct revisions (uuids 4 and 6) that BOTH carry sequence id 1 — the loop
reuses the unadvanced parent — so the sequence ids within the branch are not
strictly monotonically increasing by one per change. -/
theorem C2_equal_ids_counterexample :
    ((update initialProvState stepTwoChanges).1.models.filterMap Model.changeRevision?).map
        (fun r => (r.uuid, r.id_)) = [(4, 1), (6, 1)] ∧
    (update initialProvState stepTwoChanges).2 = none :=
  ⟨rfl, rfl⟩

/-- C8 fails on the code in one point: the generation edge for the operator
run carries the role STRING "AddedOperatorRun" (the value of the constant
named `CREATED_OPERATOR_RUN`), not the string "CreatedOperatorRun"; no edge
of the fragment carries the string "CreatedOperatorRun". -/
theorem C8_role_string_counterexample :
    ((OperationExecutionModel.build ⟨exampleExecution⟩).relations.filter
        (fun r => r.kind == .generation)).map (fun r => r.role) =
      [some "AddedOperatorRun"] ∧
    ((OperationExecutionModel.build ⟨exampleExecution⟩).relations.filter
        (fun r => r.role == some "CreatedOperatorRun")) = [] :=
  ⟨rfl, rfl⟩

/-- C8 amended: the operator-execution fragment contains the
`OperatorExecution` activity, a usage edge from the activity to the
`OperatorRevision` with role `UsedOperatorRevision`, the `OperatorRevision`
and each of its `Parameter`s with membership edges, the `OperatorRun` with a
generation edge to the activity whose role attribute is the string
"AddedOperatorRun" (the value of `ProvRole.CREATED_OPERATOR_RUN`), and for
each `Metric` one membership edge from the `OperatorRun` and one from the
`OperatorRevision`. -/
theorem C8_amended_execution_fragment (m : OperationExecutionModel) :
    m.operator_execution.prov_identifier ∈ m.build.elements ∧
    mkRelation .usage m.operator_execution.prov_identifier
        m.operator_execution.operator_revision.prov_identifier
        (some m.operator_execution.time) (some ProvRole.USED_OPERATOR_REVISION)
      ∈ m.build.relations ∧
    m.operator_execution.operator_revision.prov_identifier ∈ m.build.elements ∧
    (∀ p ∈ m.operator_execution.operator_revision.parameters,
      p.prov_identifier ∈ m.build.elements ∧
      mkRelation .membership m.operator_execution.operator_revision.prov_identifier
          p.prov_identifier none none ∈ m.build.relations) ∧
    m.operator_execution.operator_run.prov_identifier ∈ m.build.elements ∧
    mkRelation .generation m.operator_execution.operator_run.prov_identifier
        m.operator_execution.prov_identifier (some m.operator_execution.time)
        (some ProvRole.CREATED_OPERATOR_RUN) ∈ m.build.relations ∧
    (∀ mt ∈ m.operator_execution.operator_run.metrics,
      mt.prov_identifier ∈ m.build.elements ∧
      mkRelation .membership m.operator_execution.operator_run.prov_identifier
          mt.prov_identifier none none ∈ m.build.relations ∧
      mkRelation .membership m.operator_execution.operator_revision.prov_identifier
          mt.prov_identifier none none ∈ m.build.relations) := by
  have hdoc : m.build =
      ⟨((([m.operator_execution.prov_identifier] ++
          (m.operator_execution.operator_revision.parameters.map
            (fun p => [p.prov_identifier])).flatten) ++
          [m.operator_execution.operator_revision.prov_identifier]) ++
          [m.operator_execution.operator_run.prov_identifier]) ++
          (m.operator_execution.operator_run.metrics.map
            (fun mt => [mt.prov_identifier])).flatten,
        (((m.operator_execution.operator_revision.parameters.map
            (fun p => [mkRelation .membership
              m.operator_execution.operator_revision.prov_identifier
              p.prov_identifier none none])).flatten ++
          [mkRelation .usage m.operator_execution.prov_identifier
            m.operator_execution.operator_revision.prov_identifier
            (some m.operator_execution.time) (some ProvRole.USED_OPERATOR_REVISION)]) ++
          [mkRelation .generation m.operator_execution.operator_run.prov_identifier
            m.operator_execution.prov_identifier (some m.operator_execution.time)
            (some ProvRole.CREATED_OPERATOR_RUN)]) ++
          (m.operator_execution.operator_run.metrics.map
            (fun mt => [mkRelation .membership
                m.operator_execution.operator_run.prov_identifier mt.prov_identifier none none,
              mkRelation .membership
                m.operator_execution.operator_revision.prov_identifier
                mt.prov_identifier none none])).flatten⟩ := by
    simp only [OperationExecutionModel.build]
    rw [foldl_append_closed
        (fun (d : ProvDocument) (p : Parameter) =>
          add_relation (add_element d p.prov_identifier) .membership
            m.operator_execution.operator_revision.prov_identifier
            p.prov_identifier none none)
        (fun p => [p.prov_identifier])
        (fun p => [mkRelation .membership
          m.operator_execution.operator_revision.prov_identifier
          p.prov_identifier none none])
        (fun d x => rfl)]
    rw [foldl_append_closed
        (fun (d : ProvDocument) (mt : Metric) =>
          add_relation (add_relation (add_element d mt.prov_identifier) .membership
              m.operator_execution.operator_run.prov_identifier mt.prov_identifier none none)
            .membership m.operator_execution.operator_revision.prov_identifier
            mt.prov_identifier none none)
        (fun mt => [mt.prov_identifier])
        (fun mt => [mkRelation .membership
            m.operator_execution.operator_run.prov_identifier mt.prov_identifier none none,
          mkRelation .membership
            m.operator_execution.operator_revision.prov_identifier
            mt.prov_identifier none none])
        (fun d x => by simp [add_element, add_relation])]
    simp [add_element, add_relation, ProvDocument.empty]
  rw [hdoc]
  refine ⟨by simp, by simp, by simp, ?_, by simp, by simp, ?_⟩
  · intro p hp
    constructor
    · simp only [List.mem_append, List.mem_flatten, List.mem_map]
      exact .inl (.inl (.inl (.inr ⟨[p.prov_identifier], ⟨p, hp, rfl⟩, by simp⟩)))
    · simp only [List.mem_append, List.mem_flatten, List.mem_map]
      exact .inl (.inl (.inl ⟨[mkRelation .membership
        m.operator_execution.operator_revision.prov_identifier p.prov_identifier none none],
        ⟨p, hp, rfl⟩, by simp⟩))
  · intro mt hmt
    refine ⟨?_, ?_, ?_⟩
    · simp only [List.mem_append, List.mem_flatten, List.mem_map]
      exact .inr ⟨[mt.prov_identifier], ⟨mt, hmt, rfl⟩, by simp⟩
    · simp only [List.mem_append, List.mem_flatten, List.mem_map]
      exact .inr ⟨[mkRelation .membership
          m.operator_execution.operator_run.prov_identifier mt.prov_identifier none none,
        mkRelation .membership m.operator_execution.operator_revision.prov_identifier
          mt.prov_identifier none none], ⟨mt, hmt, rfl⟩, by simp⟩
    · simp only [List.mem_append, List.mem_flatten, List.mem_map]
      exact .inr ⟨[mkRelation .membership
          m.operator_execution.operator_run.prov_identifier mt.prov_identifier none none,
        mkRelation .membership m.operator_execution.operator_revision.prov_identifier
          mt.prov_identifier none none], ⟨mt, hmt, rfl⟩, by simp⟩

theorem C8_amended_execution_fragment_witness :
    Parameter.prov_identifier ⟨"lr", .pfloat 10⟩ ∈
      (OperationExecutionModel.build ⟨exampleExecution⟩).elements ∧
    mkRelation .membership exampleExecution.operator_run.prov_identifier
        (Metric.prov_identifier ⟨"loss", 7⟩) none none ∈
      (OperationExecutionModel.build ⟨exampleExecution⟩).relations :=
  ⟨((C8_amended_execution_fragment ⟨exampleExecution⟩).2.2.2.1 ⟨"lr", .pfloat 10⟩
      (by decide)).1,
   ((C8_amended_execution_fragment ⟨exampleExecution⟩).2.2.2.2.2.2 ⟨"loss", 7⟩
      (by decide)).2.1⟩

/-- C9 fails on the code in two points: the genesis fragment holds 3 PROV
elements but THREE edges (two generations and one specialization), not two;
and with `metrics=[]` — which is not Python `None` — the execution phase
runs, finds no operator in the empty genesis revision and raises
`StopIteration`, so the update does not complete without error. -/
theorem C9_minimal_genesis_counterexample :
    ((update initialProvState stepS1).1.docs.map
        (fun d => (d.elements.length, d.relations.length))) = [(3, 3)] ∧
    (update initialProvState stepS1).2 = some .stopIteration :=
  ⟨rfl, rfl⟩

/-- C9 amended: the first update on an uninitialized translator with a debug
step on branch 0, no parent branch, no changes and EMPTY metrics imports
exactly one PROV document — one `PipelineVersionCreation`, one empty
`PipelineVersionRevision` and one `PipelineVersion` with a generation edge
revision-to-creation, a specialization edge revision-to-version and a
generation edge version-to-creation (3 elements, 3 edges) — and then raises
`StopIteration` in the execution phase because the empty metrics list is not
`None` and the genesis revision holds no operators. -/
theorem C9_amended_minimal_genesis :
    (update initialProvState stepS1).1.docs =
      [⟨["PipelineVersionCreation?uuid=2", "PipelineVersionRevision?uuid=1",
         "PipelineVersion?id=0"],
        [mkRelation .generation "PipelineVersionRevision?uuid=1"
           "PipelineVersionCreation?uuid=2" (some 5) (some "CreatedPipelineVersionRevision"),
         mkRelation .specialization "PipelineVersionRevision?uuid=1"
           "PipelineVersion?id=0" none none,
         mkRelation .generation "PipelineVersion?id=0"
           "PipelineVersionCreation?uuid=2" (some 5) (some "CreatedPipelineVersion")]⟩] ∧
    (update initialProvState stepS1).1.models.length = 1 ∧
    (update initialProvState stepS1).2 = some .stopIteration :=
  ⟨rfl, rfl, rfl⟩

theorem initAccumulate_fold_spec (data : List PipelineChangeData) :
    ∀ (ops : List OperatorRevision) (cons : List Connection) (s : ProvState),
      ((data.foldl initAccumulate (ops, cons, s)).2.2).repo = s.repo ∧
      ((data.foldl initAccumulate (ops, cons, s)).2.2).last_pipeline_version_revision_id =
        s.last_pipeline_version_revision_id := by
  induction data with
  | nil => intro ops cons s; exact ⟨rfl, rfl⟩
  | cons cd rest ih =>
      intro ops cons s
      cases cd <;> simpa [initAccumulate, ProvState.freshUuid] using ih _ _ _

theorem applyChange_fields (s : ProvState) (parent : PipelineVersionRevision) (t : Rat)
    (c : PipelineChangeData) :
    (applyChange s parent t c).1.repo = s.repo ∧
    (applyChange s parent t c).1.last_pipeline_version_revision_id =
      s.last_pipeline_version_revision_id := by
  cases c with
  | operatorCreation id opid opname odata =>
      exact ⟨by simp [applyChange, ProvState.add_model, ProvState.freshUuid],
        by simp [applyChange, ProvState.add_model, ProvState.freshUuid]⟩
  | operatorModification id opid opname cp cv =>
      rcases hf : (s.heap.getOps parent.operatorsRef).find?
          (fun o => o.operator == (⟨opid, opname⟩ : Operator)) with _ | orv <;>
        exact ⟨by simp [applyChange, hf, ProvState.add_model, ProvState.freshUuid],
          by simp [applyChange, hf, ProvState.add_model, ProvState.freshUuid]⟩
  | operatorDeletion id opid opname =>
      rcases hf : (s.heap.getOps parent.operatorsRef).find?
          (fun o => o.operator == (⟨opid, opname⟩ : Operator)) with _ | orv <;>
        exact ⟨by simp [applyChange, hf, ProvState.add_model, ProvState.freshUuid],
          by simp [applyChange, hf, ProvState.add_model, ProvState.freshUuid]⟩
  | connectionCreation id cid fo tgt fsk tsk =>
      exact ⟨by simp [applyChange, ProvState.add_model, ProvState.freshUuid],
        by simp [applyChange, ProvState.add_model, ProvState.freshUuid]⟩
  | connectionDeletion id cid fo tgt fsk tsk =>
      exact ⟨by simp [applyChange, ProvState.add_model, ProvState.freshUuid],
        by simp [applyChange, ProvState.add_model, ProvState.freshUuid]⟩

theorem applyChanges_fields (parent : PipelineVersionRevision) (t : Rat) :
    ∀ (cs : List PipelineChangeData) (s : ProvState),
      (applyChanges s parent t cs).1.repo = s.repo ∧
      (applyChanges s parent t cs).1.last_pipeline_version_revision_id =
        s.last_pipeline_version_revision_id := by
  intro cs
  induction cs with
  | nil => intro s; exact ⟨rfl, rfl⟩
  | cons c rest ih =>
      intro s
      rcases hac : applyChange s parent t c with ⟨s2, e⟩
      have hf := applyChange_fields s parent t c
      rw [hac] at hf
      cases e with
      | none =>
          rw [show applyChanges s parent t (c :: rest) = applyChanges s2 parent t rest from
            by simp [applyChanges, hac]]
          exact ⟨(ih s2).1.trans hf.1, (ih s2).2.trans hf.2⟩
      | some e2 =>
          rw [show applyChanges s parent t (c :: rest) = (s2, some e2) from
            by simp [applyChanges, hac]]
          exact hf

theorem applyExecution_fields (s : ProvState) (parent : PipelineVersionRevision)
    (data : DebugStepData) :
    (applyExecution s parent data).1.repo = s.repo ∧
    (applyExecution s parent data).1.last_pipeline_version_revision_id =
      s.last_pipeline_version_revision_id := by
  rcases hm : data.operator_metrics with _ | ms
  · exact ⟨by simp [applyExecution, hm], by simp [applyExecution, hm]⟩
  · rcases hf : (s.heap.getOps parent.operatorsRef).find?
        (fun o => o.operator == (⟨data.operator_id, data.operator_name⟩ : Operator))
        with _ | orv <;>
      exact ⟨by simp [applyExecution, hm, hf, ProvState.add_model, ProvState.freshUuid],
        by simp [applyExecution, hm, hf, ProvState.add_model, ProvState.freshUuid]⟩

theorem singleton_filter_of_map :
    ∀ (l : List PipelineVersionRevision) (vs : List PipelineVersion) (pv : PipelineVersion),
      l.map (fun r => r.pipeline_version) = vs →
      vs.Pairwise (fun a b => a.id_ ≠ b.id_) →
      pv ∈ vs →
      ∃ rev, l.filter (fun r => r.pipeline_version == pv) = [rev] ∧
        rev.pipeline_version = pv ∧ rev ∈ l := by
  intro l
  induction l with
  | nil =>
      intro vs pv hmap hpw hmem
      rw [← hmap] at hmem
      simp at hmem
  | cons r rest ih =>
      intro vs pv hmap hpw hmem
      subst hmap
      rw [List.map_cons] at hpw hmem
      rw [List.pairwise_cons] at hpw
      rcases List.mem_cons.mp hmem with heq | hmem2
      · subst heq
        refine ⟨r, ?_, rfl, by simp⟩
        have htail : rest.filter (fun x => x.pipeline_version == r.pipeline_version) = [] := by
          rw [List.filter_eq_nil_iff]
          intro x hx hbeq
          have hxeq : x.pipeline_version = r.pipeline_version := eq_of_beq hbeq
          exact hpw.1 x.pipeline_version (List.mem_map.mpr ⟨x, hx, rfl⟩) (by rw [hxeq])
        simp [List.filter_cons, htail]
      · have hne : (r.pipeline_version == pv) = false := by
          rw [beq_eq_false_iff_ne]
          intro hxeq
          exact hpw.1 pv hmem2 (by rw [hxeq])
        obtain ⟨rev, h1, h2, h3⟩ :=
          ih (rest.map (fun r => r.pipeline_version)) pv rfl hpw.2 hmem2
        refine ⟨rev, ?_, h2, by simp [h3]⟩
        simp [List.filter_cons, hne, h1]

theorem find?_of_filter_singleton (p q : PipelineVersionRevision → Bool) :
    ∀ (l : List PipelineVersionRevision) (rev : PipelineVersionRevision),
      l.filter p = [rev] →
      (∀ x, q x = true → p x = true) →
      q rev = true →
      l.find? q = some rev := by
  intro l
  induction l with
  | nil => intro rev hf; simp at hf
  | cons x rest ih =>
      intro rev hf himp hq
      by_cases hpx : p x = true
      · rw [List.filter_cons_of_pos hpx] at hf
        injection hf with h1 h2
        subst h1
        exact List.find?_cons_of_pos _ hq
      · rw [List.filter_cons_of_neg hpx] at hf
        have hqx : ¬ q x = true := fun hqx => hpx (himp x hqx)
        rw [List.find?_cons_of_neg _ hqx]
        exact ih rev hf himp hq

theorem ReposInv_transfer (x y : ProvState) (hrepo : x.repo = y.repo)
    (hcache : x.last_pipeline_version_revision_id = 0) (hy : ReposInv y) : ReposInv x := by
  refine ⟨?_, ?_, ?_, hcache⟩ <;> rw [hrepo]
  exacts [hy.1, hy.2.1, hy.2.2.1]

theorem inv_initial : ReposInv initialProvState :=
  ⟨rfl, by simp [initialProvState, Repo.empty], by simp [initialProvState, Repo.empty], rfl⟩

theorem inv_clear (s : ProvState) (h : ReposInv s) : ReposInv s.clear :=
  ⟨rfl, by simp [ProvState.clear, Repo.empty], by simp [ProvState.clear, Repo.empty],
    h.2.2.2⟩

theorem inv_initializeGraph (s : ProvState) (data : List PipelineChangeData)
    (h : ReposInv s) (hv : s.repo.versions = []) : ReposInv (initializeGraph s data).1 := by
  by_cases hinit : s.initialized = true
  · simpa [initializeGraph, hinit] using h
  · have hrev : s.repo.revisions = [] := by
      have h1 := h.1
      rw [hv] at h1
      exact List.map_eq_nil_iff.mp h1
    have hfold := initAccumulate_fold_spec data [] [] s
    refine ⟨?_, ?_, ?_, ?_⟩ <;>
      simp [initializeGraph, hinit, ProvState.freshUuid, ProvState.add_model,
        Repo.addVersion, Repo.addRevision, Repo.addCreation, Heap.allocOps, Heap.allocCons,
        hfold.1, hfold.2, hv, hrev, INITIAL_PIPELINE_VERSION_REVISION_ID, h.2.2.2]

theorem resolveBranch_err_state (s : ProvState) (data : DebugStepData) (s1 : ProvState)
    (e : PyErr) (h : resolveBranch s data = .err s1 e) : s1 = s := by
  by_cases hA : s.initialized = false ∧ s.repo.versions = []
  · simp [resolveBranch, hA, ProvState.freshUuid, ProvState.add_model,
      Heap.allocOps, Heap.allocCons] at h
  · rcases hv : s.repo.getVersion data.branch_id with _ | pv
    · rcases hp : s.repo.getVersionOpt data.parent_branch_id with _ | ppv
      · simp [resolveBranch, hA, hv, hp] at h
        exact h.1.symm
      · rcases hl : (s.repo.listRevisions ppv).getLast? with _ | pprev
        · simp [resolveBranch, hA, hv, hp, hl] at h
          exact h.1.symm
        · simp [resolveBranch, hA, hv, hp, hl, ProvState.freshUuid,
            ProvState.add_model] at h
    · by_cases hc : s.last_pipeline_version_id = data.branch_id
      · simp [resolveBranch, hA, hv, hc] at h
      · rcases hl : (s.repo.listRevisions pv).getLast? with _ | r
        · simp [resolveBranch, hA, hv, hc, hl] at h
          exact h.1.symm
        · simp [resolveBranch, hA, hv, hc, hl] at h

theorem resolveBranch_ok_spec (s : ProvState) (data : DebugStepData)
    (h : ReposInv s) (s1 : ProvState) (pv : PipelineVersion)
    (popt : Option PipelineVersionRevision)
    (hres : resolveBranch s data = .ok s1 pv popt) :
    ReposInv s1 ∧ ∀ p, popt = some p → p.id_ = 0 := by
  by_cases hA : s.initialized = false ∧ s.repo.versions = []
  · have hrevnil : s.repo.revisions = [] := by
      have h1 := h.1
      rw [hA.2] at h1
      exact List.map_eq_nil_iff.mp h1
    simp only [resolveBranch, hA.1, hA.2, and_self, if_true, ProvState.freshUuid,
      ProvState.add_model, Heap.allocOps, Heap.allocCons,
      ResolveOutcome.ok.injEq] at hres
    obtain ⟨hs1, hpv, hpopt⟩ := hres
    subst hs1
    constructor
    · refine ⟨?_, ?_, ?_, ?_⟩ <;>
        simp [Repo.addVersion, Repo.addRevision, Repo.addCreation, hA.2, hrevnil, h.2.2.2]
    · intro p hp
      rw [← hpopt] at hp
      injection hp with hp
      rw [← hp]
  · rcases hv : s.repo.getVersion data.branch_id with _ | pv2
    · rcases hp : s.repo.getVersionOpt data.parent_branch_id with _ | ppv
      · simp [resolveBranch, hA, hv, hp] at hres
      · rcases hl : (s.repo.listRevisions ppv).getLast? with _ | pprev
        · simp [resolveBranch, hA, hv, hp, hl] at hres
        · have hbmem : ∀ v ∈ s.repo.versions, ¬(v.id_ = data.branch_id) := by
            intro v hvm hveq
            have := List.find?_eq_none.mp hv v hvm
            simp [hveq] at this
          simp only [resolveBranch, hA, if_neg, hv, hp, hl, ProvState.freshUuid,
            ProvState.add_model, ResolveOutcome.ok.injEq, if_false] at hres
          obtain ⟨hs1, hpv, hpopt⟩ := hres
          subst hs1
          constructor
          · refine ⟨?_, ?_, ?_, ?_⟩
            · simp [Repo.addVersion, Repo.addRevision, Repo.addCreation, h.1]
            · simp only [Repo.addVersion, Repo.addRevision, Repo.addCreation]
              intro r hr
              rcases List.mem_append.mp hr with hr | hr
              · exact h.2.1 r hr
              · simp at hr
                rw [hr]
            · simp [Repo.addVersion, Repo.addRevision, Repo.addCreation,
                List.pairwise_append]
              refine ⟨h.2.2.1, ?_⟩
              intro v hvm
              exact hbmem v hvm
            · simp [h.2.2.2]
          · intro p hp
            rw [← hpopt] at hp
            injection hp with hp
            rw [← hp]
    · by_cases hc : s.last_pipeline_version_id = data.branch_id
      · simp only [resolveBranch, hA, if_neg, hv, hc, if_pos,
          ResolveOutcome.ok.injEq, if_false] at hres
        obtain ⟨hs1, hpv, hpopt⟩ := hres
        subst hs1
        refine ⟨h, ?_⟩
        intro p hp
        rw [← hpopt] at hp
        have hmem := List.mem_of_find?_eq_some hp
        exact h.2.1 p hmem
      · rcases hl : (s.repo.listRevisions pv2).getLast? with _ | r
        · simp [resolveBranch, hA, hv, hc, hl] at hres
        · simp only [resolveBranch, hA, if_neg, hv, hc, hl,
            ResolveOutcome.ok.injEq, if_false] at hres
          obtain ⟨hs1, hpv, hpopt⟩ := hres
          subst hs1
          refine ⟨h, ?_⟩
          intro p hp
          have hrp : r = p := Option.some.inj (hpopt.trans hp)
          rw [← hrp]
          have hmem : r ∈ s.repo.listRevisions pv2 := List.mem_of_mem_getLast? hl
          exact h.2.1 r (List.mem_of_mem_filter hmem)

theorem inv_changes_exec (s3 : ProvState) (parent : PipelineVersionRevision)
    (data : DebugStepData) (chopt : Option (List PipelineChangeData))
    (h3 : ReposInv s3) :
    ReposInv (match (match chopt with
        | none => (s3, (none : Option PyErr))
        | some cs => applyChanges s3 parent data.timestamp cs) with
      | (s, some e) => (s, some e)
      | (s, none) => applyExecution s parent data).1 := by
  cases chopt with
  | none =>
      have hef := applyExecution_fields s3 parent data
      exact ReposInv_transfer _ s3 hef.1 (hef.2.trans h3.2.2.2) h3
  | some cs =>
      rcases hac : applyChanges s3 parent data.timestamp cs with ⟨s4, e4⟩
      have hcf := applyChanges_fields parent data.timestamp cs s3
      rw [hac] at hcf
      simp only [hac]
      cases e4 with
      | none =>
          have hef := applyExecution_fields s4 parent data
          exact ReposInv_transfer _ s3 (hef.1.trans hcf.1)
            (hef.2.trans (hcf.2.trans h3.2.2.2)) h3
      | some e5 =>
          exact ReposInv_transfer _ s3 hcf.1 (hcf.2.trans h3.2.2.2) h3

theorem inv_update (s : ProvState) (data : DebugStepData) (h : ReposInv s) :
    ReposInv (update s data).1 := by
  rcases hres : resolveBranch s data with ⟨s1, pv, popt⟩ | ⟨s1, e⟩
  · obtain ⟨hinv1, hpopt⟩ := resolveBranch_ok_spec s data h s1 pv popt hres
    rcases popt with _ | parent
    · simp only [update, hres]
      exact hinv1
    · have hpid : parent.id_ = 0 := hpopt parent rfl
      simp only [update, hres]
      exact inv_changes_exec _ parent data data.changes
        (ReposInv_transfer _ s1 rfl hpid hinv1)
  · have hs1 : s1 = s := resolveBranch_err_state s data s1 e hres
    simp only [update, hres]
    rw [hs1]
    exact h

theorem reachable_inv (s : ProvState) (h : DisciplinedReachable s) : ReposInv s := by
  induction h with
  | init => exact inv_initial
  | doInitialize s data hr hv ih => exact inv_initializeGraph s data ih hv
  | doUpdate s data hr ih => exact inv_update s data ih
  | doClear s hr ih => exact inv_clear s ih

/-- C1 amended: provided `initialize` is only ever invoked while the object
store holds no `PipelineVersion` (the initialize-before-updates discipline),
the store holds exactly one revision per branch — its genesis — so for every
call to `update` whose `branch_id` names an existing `PipelineVersion`,
branch resolution leaves the state untouched and resolves exactly the most
recent (last inserted) `PipelineVersionRevision` of that branch, and the
cached-id fetch returns that same revision.  Without that proviso the claim
fails: see the counterexample, where `initialize` after a first `update`
stores a second branch-0 revision and the cached fetch returns the older
one. -/
theorem C1_amended_parent_resolution (s : ProvState) (data : DebugStepData)
    (pv : PipelineVersion) (hreach : DisciplinedReachable s)
    (hv : s.repo.getVersion data.branch_id = some pv) :
    ∃ rev, s.repo.listRevisions pv = [rev] ∧
      (s.repo.listRevisions pv).getLast? = some rev ∧
      s.repo.getRevision pv s.last_pipeline_version_revision_id = some rev ∧
      resolveBranch s data = .ok s pv (some rev) := by
  have hinv := reachable_inv s hreach
  have hpvmem : pv ∈ s.repo.versions := List.mem_of_find?_eq_some hv
  obtain ⟨rev, hfilter, hrevpv, hrevmem⟩ :=
    singleton_filter_of_map s.repo.revisions s.repo.versions pv hinv.1 hinv.2.2.1 hpvmem
  have hrevid : rev.id_ = 0 := hinv.2.1 rev hrevmem
  have hlr : s.repo.listRevisions pv = [rev] := hfilter
  have hlast : (s.repo.listRevisions pv).getLast? = some rev := by
    rw [hlr]
    rfl
  have hget : s.repo.getRevision pv s.last_pipeline_version_revision_id = some rev := by
    rw [hinv.2.2.2]
    exact find?_of_filter_singleton (fun r => r.pipeline_version == pv)
      (fun r => r.pipeline_version == pv && r.id_ == (0 : Int)) s.repo.revisions rev
      hfilter (fun x hx => by simp only [Bool.and_eq_true] at hx; exact hx.1)
      (by simp [hrevpv, hrevid])
  refine ⟨rev, hlr, hlast, hget, ?_⟩
  have hAneg : ¬(s.initialized = false ∧ s.repo.versions = []) := by
    rintro ⟨_, hnil⟩
    rw [hnil] at hpvmem
    simp at hpvmem
  by_cases hc : s.last_pipeline_version_id = data.branch_id
  · simp [resolveBranch, hAneg, hv, hc, hget]
  · simp [resolveBranch, hAneg, hv, hc, hlast]

theorem C1_amended_parent_resolution_witness :
    resolveBranch stateInitEmpty stepNoMetrics =
      .ok stateInitEmpty ⟨0, none⟩ (some ⟨1, 0, ⟨0, none⟩, none, 0, 0⟩) := by
  obtain ⟨rev, hsing, hlast, hget, hres⟩ := C1_amended_parent_resolution stateInitEmpty
    stepNoMetrics ⟨0, none⟩
    (DisciplinedReachable.doInitialize initialProvState [] DisciplinedReachable.init rfl)
    rfl
  have hconc : stateInitEmpty.repo.listRevisions ⟨0, none⟩ =
      [⟨1, 0, ⟨0, none⟩, none, 0, 0⟩] := rfl
  rw [hconc] at hsing
  injection hsing with h1 _
  rw [← h1] at hres
  exact hres

/-- C1 fails on the code as stated: after a legal warning-free call sequence
`update` (which creates branch 0 and leaves `initialized` false) followed by
`initialize` (which stores a SECOND branch-0 pipeline version and revision),
the next update on branch 0 takes the cached path and fetches the revision
with uuid 1, while the most recent (last inserted) branch-0 revision in the
store is the one with uuid 3 — and the update completes without error on the
stale parent. -/
theorem C1_stale_cache_counterexample :
    stateInterleaved.repo.getVersion 0 = some ⟨0, none⟩ ∧
    stateInterleaved.last_pipeline_version_id = 0 ∧
    resolvedParentUuid stateInterleaved stepNoMetrics = some 1 ∧
    ((stateInterleaved.repo.listRevisions ⟨0, none⟩).getLast?.map (fun r => r.uuid)) =
      some 3 ∧
    (update stateInterleaved stepNoMetrics).2 = none :=
  ⟨rfl, rfl, rfl, rfl, rfl⟩

end Provinspector
